import Mathlib

/-!
# Scale-to-zero API: the scaling controller and the status classifier

A shallow embedding of `src/api/k8s/client.go` (`ScaleDeployment`,
`GetDeploymentStatus`), `src/api/handlers/deployment.go` (`ScaleToZero`,
`ScaleUp`, `GetStatus`) and `src/api/models/deployment.go`.

Conventions
* `int32` values are `Int`; the code only copies and compares them, it never
  does arithmetic on them, so no wrap-around can occur.
* `time.Time` values are `Nat` instants; `time.Now()` is an argument `now`.
* A Go `error` is a `GoError`; a Go `(value, error)` result is an `Except`,
  and a bare `error` result is an `Option GoError` (`none` is `nil`).
* The cluster API reached through `clientset.AppsV1().Deployments(ns)` is an
  external collaborator.  It is modelled as an explicit state (`Clientset`)
  that every call threads through.
-/

set_option autoImplicit false

namespace ScaleToZero

/-! ## Go errors and the `k8s.io/apimachinery/pkg/api/errors` predicates -/

/-- The `metav1.StatusReason` values an API status error can carry. -/
inductive StatusReason
  | Unknown
  | Unauthorized
  | Forbidden
  | NotFound
  | AlreadyExists
  | Conflict
  | Invalid
  | BadRequest
  | Timeout
  | ServerTimeout
  | InternalError
  | ServiceUnavailable
  deriving DecidableEq, Repr

/-- A Go error value: an API `StatusError`, any other leaf error (transport,
context), or `fmt.Errorf(pre + "%w", inner)`, which keeps `inner` in its chain. -/
inductive GoError
  | status (reason : StatusReason) (code : Nat) (message : String)
  | plain (message : String)
  | wrapf (pre : String) (inner : GoError)
  deriving DecidableEq, Repr

namespace GoError

/-- The `Error()` text: a wrapped error prints its own text followed by the
text of the error it wraps. -/
def Error : GoError → String
  | status _ _ message => message
  | plain message => message
  | wrapf pre inner => pre ++ inner.Error

/-- The `errors.Unwrap` step. -/
def Unwrap : GoError → Option GoError
  | wrapf _ inner => some inner
  | _ => none

/-- The `errors.Is` walk: `target` occurs somewhere in the chain of `err`. -/
def Is (err target : GoError) : Bool :=
  err == target ||
    match err with
    | wrapf _ inner => inner.Is target
    | _ => false

/-- The `errors.As` walk for an API status: the reason and code of the first
`StatusError` in the chain. -/
def asStatus : GoError → Option (StatusReason × Nat)
  | status reason code _ => some (reason, code)
  | plain _ => none
  | wrapf _ inner => inner.asStatus

end GoError

/-- The reason and HTTP code `apierrors` reads out of an error chain; an error
that carries no API status has reason `Unknown` and code 0. -/
def reasonAndCodeForError (err : GoError) : StatusReason × Nat :=
  match err.asStatus with
  | some rc => rc
  | none => (StatusReason.Unknown, 0)

/-- The `apierrors.IsNotFound` predicate. -/
def IsNotFound (err : GoError) : Bool :=
  let rc := reasonAndCodeForError err
  rc.1 == StatusReason.NotFound || (rc.1 == StatusReason.Unknown && rc.2 == 404)

/-- The `apierrors.IsConflict` predicate. -/
def IsConflict (err : GoError) : Bool :=
  let rc := reasonAndCodeForError err
  rc.1 == StatusReason.Conflict || (rc.1 == StatusReason.Unknown && rc.2 == 409)

/-- The `apierrors.NewNotFound` constructor for a deployment. -/
def NewNotFound (name : String) : GoError :=
  GoError.status StatusReason.NotFound 404 ("deployments.apps \"" ++ name ++ "\" not found")

/-- The `apierrors.NewConflict` constructor for a deployment. -/
def NewConflict (name : String) : GoError :=
  GoError.status StatusReason.Conflict 409
    ("Operation cannot be fulfilled on deployments.apps \"" ++ name ++
      "\": the object has been modified; please apply your changes to the latest version and try again")

/-- The `apierrors.NewBadRequest` constructor. -/
def NewBadRequest (reason : String) : GoError :=
  GoError.status StatusReason.BadRequest 400 reason

/-! ## The external cluster API -/

/-- The fields of `appsv1.Deployment` the program reads or writes.
`Replicas` is `Spec.Replicas` (a `*int32`, so it may be absent);
`StatusReplicas` is `Status.Replicas`. -/
structure Deployment where
  Name : String
  Namespace : String
  ResourceVersion : Nat
  CreationTimestamp : Nat
  Replicas : Option Int
  StatusReplicas : Int
  UpdatedReplicas : Int
  AvailableReplicas : Int
  deriving DecidableEq, Repr

/-- A call received by the cluster API. -/
inductive Action
  | get (ns name : String)
  | update (ns : String) (obj : Deployment)
  deriving DecidableEq, Repr

/-- The call is a read. -/
def Action.isGet : Action → Bool
  | Action.get _ _ => true
  | Action.update _ _ => false

/-- The call is an update. -/
def Action.isUpdate : Action → Bool
  | Action.get _ _ => false
  | Action.update _ _ => true

/-- What the rest of the world does to the cluster just before the API serves
its next call: nothing, another client committing a new desired replica count,
the deployment controller reporting new status counters, another client
deleting the deployment, or a failure of the call itself (authorization,
transport, an injected reaction). -/
inductive EnvStep
  | quiet
  | scale (ns name : String) (replicas : Int)
  | report (ns name : String) (replicas updated available : Int)
  | delete (ns name : String)
  | fail (err : GoError)
  deriving DecidableEq, Repr

/-- Modelled from the spec: the cluster API behind `kubernetes.Interface`
(`ReadWorkload` and `WriteDesiredReplicas` of section 6) is an external
collaborator whose code is not part of the repository.  `tracker` is the
stored objects, `script` the environment steps still to come (one is consumed
by each call; an empty script means a quiet world) and `actions` the calls
received so far, oldest first. -/
structure Clientset where
  tracker : List Deployment
  script : List EnvStep
  actions : List Action
  deriving DecidableEq, Repr

/-- Apply `f` to every stored object with the given key. -/
def amend (objs : List Deployment) (ns name : String) (f : Deployment → Deployment) :
    List Deployment :=
  objs.map fun d => if d.Namespace = ns ∧ d.Name = name then f d else d

/-- Drop every stored object with the given key. -/
def remove (objs : List Deployment) (ns name : String) : List Deployment :=
  objs.filter fun d => !(decide (d.Namespace = ns ∧ d.Name = name))

/-- The stored object with the given key, if any. -/
def lookup (objs : List Deployment) (ns name : String) : Option Deployment :=
  objs.find? fun d => decide (d.Namespace = ns ∧ d.Name = name)

namespace Clientset

/-- The stored deployment `ns/name`, if it exists. -/
def find (c : Clientset) (ns name : String) : Option Deployment :=
  lookup c.tracker ns name

/-- Modelled from the spec: the environment step that precedes a call.  Every
committed change gives the object a new resource version.  The second
component is the failure injected into the call, if any. -/
def advance (c : Clientset) : Clientset × Option GoError :=
  match c.script with
  | [] => (c, none)
  | EnvStep.quiet :: rest => ({ c with script := rest }, none)
  | EnvStep.scale ns name replicas :: rest =>
    ({ c with
        script := rest
        tracker := amend c.tracker ns name fun d =>
          { d with Replicas := some replicas, ResourceVersion := d.ResourceVersion + 1 } },
      none)
  | EnvStep.report ns name replicas updated available :: rest =>
    ({ c with
        script := rest
        tracker := amend c.tracker ns name fun d =>
          { d with
            StatusReplicas := replicas
            UpdatedReplicas := updated
            AvailableReplicas := available
            ResourceVersion := d.ResourceVersion + 1 } },
      none)
  | EnvStep.delete ns name :: rest =>
    ({ c with script := rest, tracker := remove c.tracker ns name }, none)
  | EnvStep.fail err :: rest => ({ c with script := rest }, some err)

/-- Record a received call. -/
def record (c : Clientset) (a : Action) : Clientset :=
  { c with actions := c.actions ++ [a] }

/-- Modelled from the spec: `Deployments(ns).Get(ctx, name, GetOptions)`, the
`ReadWorkload` primitive: the stored object, or `NotFound`. -/
def Get (c : Clientset) (ns name : String) : Except GoError Deployment × Clientset :=
  let step := c.advance
  let c1 := step.1.record (Action.get ns name)
  match step.2 with
  | some err => (Except.error err, c1)
  | none =>
    match c1.find ns name with
    | none => (Except.error (NewNotFound name), c1)
    | some d => (Except.ok d, c1)

/-- Modelled from the spec: `Deployments(ns).Update(ctx, obj, UpdateOptions)`,
the `WriteDesiredReplicas` primitive: a version-checked conditional write.  A
write whose resource version is not the stored one is rejected with `Conflict`
and changes nothing; an accepted write stores the submitted spec under a new
resource version (status counters are owned by the cluster and kept). -/
def Update (c : Clientset) (ns : String) (obj : Deployment) :
    Except GoError Deployment × Clientset :=
  let step := c.advance
  let c1 := step.1.record (Action.update ns obj)
  match step.2 with
  | some err => (Except.error err, c1)
  | none =>
    if obj.Namespace ≠ ns then
      (Except.error (NewBadRequest
        "the namespace of the provided object does not match the namespace sent on the request"), c1)
    else
      match c1.find ns obj.Name with
      | none => (Except.error (NewNotFound obj.Name), c1)
      | some cur =>
        if obj.ResourceVersion ≠ cur.ResourceVersion then
          (Except.error (NewConflict obj.Name), c1)
        else
          let stored : Deployment :=
            { obj with
              ResourceVersion := cur.ResourceVersion + 1
              StatusReplicas := cur.StatusReplicas
              UpdatedReplicas := cur.UpdatedReplicas
              AvailableReplicas := cur.AvailableReplicas }
          (Except.ok stored, { c1 with tracker := amend c1.tracker ns obj.Name fun _ => stored })

/-- The number of reads received. -/
def reads (c : Clientset) : Nat :=
  (c.actions.filter Action.isGet).length

/-- The number of updates received. -/
def writes (c : Clientset) : Nat :=
  (c.actions.filter Action.isUpdate).length

/-- The desired replica count stored for `ns/name` (`none` when the deployment
does not exist or has no explicit count). -/
def desired (c : Clientset) (ns name : String) : Option Int :=
  (c.find ns name).bind fun d => d.Replicas

end Clientset

namespace Clientset

/-- The cluster as the environment alone leaves it over the next `n` calls:
the steps the calls consume are applied, the calls themselves are not. -/
def drift : Nat → Clientset → Clientset
  | 0, c => c
  | n + 1, c => drift n c.advance.1

end Clientset

/-! ## `k8s/client.go` -/

namespace k8s

/-- The `k8s.DeploymentStatus` snapshot. -/
structure DeploymentStatus where
  Name : String
  Namespace : String
  DesiredReplicas : Int
  CurrentReplicas : Int
  AvailableReplicas : Int
  UpdatedReplicas : Int
  CreationTime : Nat
  deriving DecidableEq, Repr

/-- `Client.ScaleDeployment`: read the deployment, set `Spec.Replicas` on the
object read, submit it once. -/
def ScaleDeployment (c : Clientset) (ns name : String) (replicas : Int) :
    Option GoError × Clientset :=
  match c.Get ns name with
  | (Except.error err, c1) =>
    (some (GoError.wrapf ("failed to get deployment " ++ ns ++ "/" ++ name ++ ": ") err), c1)
  | (Except.ok deployment, c1) =>
    let deployment := { deployment with Replicas := some replicas }
    match c1.Update ns deployment with
    | (Except.error err, c2) =>
      (some (GoError.wrapf ("failed to update deployment " ++ ns ++ "/" ++ name ++ ": ") err), c2)
    | (Except.ok _, c2) => (none, c2)

/-- `Client.GetDeploymentStatus`: one read, copied into a status snapshot; an
absent `Spec.Replicas` reads as 0. -/
def GetDeploymentStatus (c : Clientset) (ns name : String) :
    Except GoError DeploymentStatus × Clientset :=
  match c.Get ns name with
  | (Except.error err, c1) =>
    (Except.error (GoError.wrapf ("failed to get deployment " ++ ns ++ "/" ++ name ++ ": ") err), c1)
  | (Except.ok deployment, c1) =>
    let desiredReplicas : Int :=
      match deployment.Replicas with
      | some r => r
      | none => 0
    (Except.ok
      { Name := deployment.Name
        Namespace := deployment.Namespace
        DesiredReplicas := desiredReplicas
        CurrentReplicas := deployment.StatusReplicas
        AvailableReplicas := deployment.AvailableReplicas
        UpdatedReplicas := deployment.UpdatedReplicas
        CreationTime := deployment.CreationTimestamp }, c1)

/-- The `k8s.ClientInterface` the handlers depend on, over a client state `σ`
(`GetClientset` is not used by the deployment handlers). -/
structure ClientInterface (σ : Type) where
  ScaleDeployment : σ → String → String → Int → Option GoError × σ
  GetDeploymentStatus : σ → String → String → Except GoError DeploymentStatus × σ

/-- The production implementation, `*k8s.Client`. -/
def Client : ClientInterface Clientset where
  ScaleDeployment := ScaleDeployment
  GetDeploymentStatus := GetDeploymentStatus

/-- One call made through `ClientInterface`, with its arguments. -/
inductive Call
  | GetDeploymentStatus (ns name : String)
  | ScaleDeployment (ns name : String) (replicas : Int)
  deriving DecidableEq, Repr

/-- A client that answers as `k` does and keeps the list of the calls it
received, oldest first, the way the `mock.Mock` inside `MockK8sClient` records
every `Called(...)`. -/
def recorded {σ : Type} (k : ClientInterface σ) : ClientInterface (σ × List Call) where
  ScaleDeployment := fun s ns name replicas =>
    ((k.ScaleDeployment s.1 ns name replicas).1,
      ((k.ScaleDeployment s.1 ns name replicas).2, s.2 ++ [Call.ScaleDeployment ns name replicas]))
  GetDeploymentStatus := fun s ns name =>
    ((k.GetDeploymentStatus s.1 ns name).1,
      ((k.GetDeploymentStatus s.1 ns name).2, s.2 ++ [Call.GetDeploymentStatus ns name]))

end k8s

/-! ## `models/deployment.go` -/

namespace models

/-- The `ScaleRequest` payload.  Its fields carry `validate` tags only. -/
structure ScaleRequest where
  Reason : String
  ScheduledScaleUp : Option Nat
  deriving DecidableEq, Repr

/-- The `ScaleUpRequest` payload.  `Replicas`, an `int32`, is bound with
`required,min=1`, `Reason` with `required,min=1,max=500`. -/
structure ScaleUpRequest where
  Replicas : Int
  Reason : String
  deriving DecidableEq, Repr

/-- The `DeploymentInfo` record of a scale response. -/
structure DeploymentInfo where
  Name : String
  Namespace : String
  Replicas : Int
  PreviousReplicas : Int
  CurrentReplicas : Int
  TargetReplicas : Int
  TargetStatus : String
  ScaledAt : Nat
  ScaledBy : String
  Reason : String
  ScalingReason : String
  ScheduledScaleUp : Option Nat
  deriving DecidableEq, Repr

/-- The `ScaleResponse` body. -/
structure ScaleResponse where
  Status : String
  Message : String
  Deployment : Option DeploymentInfo
  Error : String
  Timestamp : Nat
  deriving DecidableEq, Repr

/-- The `models.DeploymentStatus` record of a status response. -/
structure DeploymentStatus where
  Name : String
  Namespace : String
  Deployment : String
  CurrentReplicas : Int
  DesiredReplicas : Int
  AvailableReplicas : Int
  Status : String
  LastScaled : Nat
  LastScaleTime : Nat
  Message : String
  deriving DecidableEq, Repr

/-- The `DeploymentStatusResponse` body. -/
structure DeploymentStatusResponse where
  Status : String
  Message : String
  Deployment : Option DeploymentStatus
  Error : String
  Timestamp : Nat
  deriving DecidableEq, Repr

def StatusActive : String := "active"
def StatusInactive : String := "inactive"
def StatusScaling : String := "scaling"
def StatusUnknown : String := "unknown"
def StatusSuccess : String := "success"
def StatusError : String := "error"

end models

/-! ## Request binding (`gin.Context.ShouldBindJSON`) -/

/-- The request body as the JSON decoder meets it: text that is not a JSON
object of the expected shape (`malformed`, with the decoder's error), or an
object with these field values as written (absent fields hold zero values; a
number is kept as written, whether or not it fits the field's Go type). -/
inductive Body (α : Type)
  | malformed (err : GoError)
  | json (v : α)
  deriving DecidableEq, Repr

/-- The text of one field error of the binding validator. -/
def fieldError (struct field tag : String) : String :=
  "Key: '" ++ struct ++ "." ++ field ++ "' Error:Field validation for '" ++ field ++
    "' failed on the '" ++ tag ++ "' tag"

/-- The `binding` tags of `ScaleUpRequest`, field by field; each field reports
the first tag it fails. -/
def bindingErrors (req : models.ScaleUpRequest) : List String :=
  (if req.Replicas = 0 then [fieldError "ScaleUpRequest" "Replicas" "required"]
   else if req.Replicas < 1 then [fieldError "ScaleUpRequest" "Replicas" "min"]
   else []) ++
  (if req.Reason = "" then [fieldError "ScaleUpRequest" "Reason" "required"]
   else if req.Reason.length < 1 then [fieldError "ScaleUpRequest" "Reason" "min"]
   else if req.Reason.length > 500 then [fieldError "ScaleUpRequest" "Reason" "max"]
   else [])

/-- `ShouldBindJSON(&req)` for a `ScaleRequest`: the struct has no `binding`
tag, so only decoding can fail. -/
def ShouldBindScaleRequest (body : Body models.ScaleRequest) :
    Except GoError models.ScaleRequest :=
  match body with
  | Body.malformed err => Except.error err
  | Body.json req => Except.ok req

/-- The error of `encoding/json` for a number that does not fit the `int32`
field `Replicas` of `ScaleUpRequest`. -/
def unmarshalTypeError (n : Int) : GoError :=
  GoError.plain ("json: cannot unmarshal number " ++ toString n ++
    " into Go struct field ScaleUpRequest.replicas of type int32")

/-- `ShouldBindJSON(&req)` for a `ScaleUpRequest`: decode, which fails when
the number given for `Replicas` is outside the range of `int32`, then check
the `binding` tags. -/
def ShouldBindScaleUpRequest (body : Body models.ScaleUpRequest) :
    Except GoError models.ScaleUpRequest :=
  match body with
  | Body.malformed err => Except.error err
  | Body.json req =>
    if req.Replicas < -2147483648 ∨ 2147483647 < req.Replicas then
      Except.error (unmarshalTypeError req.Replicas)
    else
      match bindingErrors req with
      | [] => Except.ok req
      | errs => Except.error (GoError.plain (String.intercalate "\n" errs))

/-! ## `handlers/deployment.go` -/

namespace handlers

/-- The `DeploymentHandler`: it holds the client it was constructed with. -/
structure DeploymentHandler (σ : Type) where
  k8sClient : k8s.ClientInterface σ

/-- `NewDeploymentHandler`. -/
def NewDeploymentHandler {σ : Type} (k8sClient : k8s.ClientInterface σ) : DeploymentHandler σ :=
  { k8sClient := k8sClient }

/-- The status block of `GetStatus`: `active` unless the desired count is 0
(`inactive`) or differs from the current count (`scaling`). -/
def determineStatus (status : k8s.DeploymentStatus) : String :=
  if status.DesiredReplicas = 0 then models.StatusInactive
  else if status.CurrentReplicas ≠ status.DesiredReplicas then models.StatusScaling
  else models.StatusActive

/-- `DeploymentHandler.ScaleToZero`: the HTTP status code and body written,
and the client state left behind. -/
def DeploymentHandler.ScaleToZero {σ : Type} (h : DeploymentHandler σ) (s : σ)
    (ns name : String) (body : Body models.ScaleRequest) (now : Nat) :
    (Nat × models.ScaleResponse) × σ :=
  match ShouldBindScaleRequest body with
  | Except.error err =>
    ((400, { Status := models.StatusError, Message := "Invalid request body",
             Deployment := none, Error := err.Error, Timestamp := 0 }), s)
  | Except.ok req =>
    match h.k8sClient.GetDeploymentStatus s ns name with
    | (Except.error err, s1) =>
      ((404, { Status := models.StatusError,
               Message := "Deployment " ++ ns ++ "/" ++ name ++ " not found",
               Deployment := none, Error := err.Error, Timestamp := 0 }), s1)
    | (Except.ok status, s1) =>
      let previousReplicas := status.DesiredReplicas
      match h.k8sClient.ScaleDeployment s1 ns name 0 with
      | (some err, s2) =>
        ((500, { Status := models.StatusError, Message := "Failed to scale deployment",
                 Deployment := none, Error := err.Error, Timestamp := 0 }), s2)
      | (none, s2) =>
        ((200, { Status := models.StatusSuccess
                 Message := "Deployment scaled to zero"
                 Timestamp := now
                 Error := ""
                 Deployment := some
                   { Name := name
                     Namespace := ns
                     Replicas := 0
                     PreviousReplicas := previousReplicas
                     CurrentReplicas := 0
                     TargetReplicas := 0
                     TargetStatus := "scaled-to-zero"
                     ScaledAt := 0
                     ScaledBy := ""
                     Reason := ""
                     ScalingReason := req.Reason
                     ScheduledScaleUp := req.ScheduledScaleUp } }), s2)

/-- `DeploymentHandler.ScaleUp`. -/
def DeploymentHandler.ScaleUp {σ : Type} (h : DeploymentHandler σ) (s : σ)
    (ns name : String) (body : Body models.ScaleUpRequest) (now : Nat) :
    (Nat × models.ScaleResponse) × σ :=
  match ShouldBindScaleUpRequest body with
  | Except.error err =>
    ((400, { Status := models.StatusError, Message := "Invalid request body",
             Deployment := none, Error := err.Error, Timestamp := 0 }), s)
  | Except.ok req =>
    match h.k8sClient.GetDeploymentStatus s ns name with
    | (Except.error err, s1) =>
      ((404, { Status := models.StatusError,
               Message := "Deployment " ++ ns ++ "/" ++ name ++ " not found",
               Deployment := none, Error := err.Error, Timestamp := 0 }), s1)
    | (Except.ok status, s1) =>
      let previousReplicas := status.DesiredReplicas
      match h.k8sClient.ScaleDeployment s1 ns name req.Replicas with
      | (some err, s2) =>
        ((500, { Status := models.StatusError, Message := "Failed to scale deployment",
                 Deployment := none, Error := err.Error, Timestamp := 0 }), s2)
      | (none, s2) =>
        ((200, { Status := models.StatusSuccess
                 Message := "Deployment scaled to " ++ toString req.Replicas ++ " replicas"
                 Timestamp := now
                 Error := ""
                 Deployment := some
                   { Name := name
                     Namespace := ns
                     Replicas := 0
                     PreviousReplicas := previousReplicas
                     CurrentReplicas := status.CurrentReplicas
                     TargetReplicas := req.Replicas
                     TargetStatus := "scaling-up"
                     ScaledAt := 0
                     ScaledBy := ""
                     Reason := ""
                     ScalingReason := req.Reason
                     ScheduledScaleUp := none } }), s2)

/-- `DeploymentHandler.GetStatus`. -/
def DeploymentHandler.GetStatus {σ : Type} (h : DeploymentHandler σ) (s : σ)
    (ns name : String) (now : Nat) : (Nat × models.DeploymentStatusResponse) × σ :=
  match h.k8sClient.GetDeploymentStatus s ns name with
  | (Except.error err, s1) =>
    ((404, { Status := models.StatusError,
             Message := "Deployment " ++ ns ++ "/" ++ name ++ " not found",
             Deployment := none, Error := err.Error, Timestamp := now }), s1)
  | (Except.ok status, s1) =>
    let deploymentStatus := determineStatus status
    let deploymentInfo : models.DeploymentStatus :=
      { Name := status.Name
        Namespace := status.Namespace
        Deployment := name
        CurrentReplicas := status.CurrentReplicas
        DesiredReplicas := status.DesiredReplicas
        AvailableReplicas := status.AvailableReplicas
        Status := deploymentStatus
        LastScaled := 0
        LastScaleTime := status.CreationTime
        Message := "" }
    ((200, { Status := models.StatusSuccess
             Message := "Deployment status retrieved successfully"
             Deployment := some deploymentInfo
             Error := ""
             Timestamp := now }), s1)

/-- The `previous_replicas` a scale response reports, if it carries a
deployment record. -/
def previousReplicas (r : (Nat × models.ScaleResponse)) : Option Int :=
  r.2.Deployment.map fun i => i.PreviousReplicas

/-- A scale response that reports the error `e`: a client- or server-error
code, status "error" and the text of `e` in the `error` field. -/
def reportsError (r : (Nat × models.ScaleResponse)) (e : GoError) : Prop :=
  400 ≤ r.1 ∧ r.2.Status = "error" ∧ r.2.Error = e.Error

/-- A status response that reports the error `e`. -/
def statusReportsError (r : (Nat × models.DeploymentStatusResponse)) (e : GoError) : Prop :=
  400 ≤ r.1 ∧ r.2.Status = "error" ∧ r.2.Error = e.Error

/-- The lifecycle state a `GetStatus` response reports, if it reports one. -/
def reportedStatus (r : (Nat × models.DeploymentStatusResponse)) : Option String :=
  r.2.Deployment.map fun d => d.Status

end handlers

/-! ## `middleware/auth.go` -/

namespace middleware

/-- `strings.Split(s, sep)` for a separator of one character: the pieces of
`s` between the occurrences of `sep`, empty pieces included. -/
def Split (s : String) (sep : Char) : List String :=
  (s.data.splitOn sep).map String.mk

/-- `strings.HasPrefix(s, pre)`. -/
def HasPrefix (s pre : String) : Bool :=
  pre.data.isPrefixOf s.data

/-- The `AuthConfig` struct. -/
structure AuthConfig where
  APIKey : String
  ExcludedPaths : List String
  ExcludedPrefixes : List String
  deriving DecidableEq, Repr

/-- `NewAuthConfig`: the key comes from the environment variable `API_KEY`
(`env` is `os.Getenv`), the exclusions are fixed. -/
def NewAuthConfig (env : String → String) : AuthConfig :=
  { APIKey := env "API_KEY"
    ExcludedPaths := ["/health", "/ready"]
    ExcludedPrefixes := ["/swagger/", "/docs/"] }

/-- What a middleware does with a request: hand it to the next handler
(`c.Next()`), or answer it with a JSON object and stop (`c.JSON` then
`c.Abort()`). -/
inductive Flow
  | next
  | abort (code : Nat) (body : List (String × String))
  deriving DecidableEq, Repr

/-- `isPathExcluded`: an exact match in `excludedPaths`, or an element of
`excludedPrefixes` that starts the path. -/
def isPathExcluded (path : String) (excludedPaths excludedPrefixes : List String) : Bool :=
  excludedPaths.any (fun excluded => path == excluded) ||
    excludedPrefixes.any (fun pre => HasPrefix path pre)

/-- `APIKeyAuth(config)` applied to a request with the given URL path and
`Authorization` header (empty when the header is absent). -/
def APIKeyAuth (config : AuthConfig) (path authHeader : String) : Flow :=
  if config.APIKey = "" then Flow.next
  else if isPathExcluded path config.ExcludedPaths config.ExcludedPrefixes then Flow.next
  else if authHeader = "" then
    Flow.abort 401 [("error", "Authorization header required")]
  else
    match Split authHeader ' ' with
    | [p0, p1] =>
      if p0 ≠ "Bearer" then
        Flow.abort 401 [("error", "Invalid authorization format. Use: Bearer <api-key>")]
      else if p1 ≠ config.APIKey then
        Flow.abort 401 [("error", "Invalid API key")]
      else Flow.next
    | _ => Flow.abort 401 [("error", "Invalid authorization format. Use: Bearer <api-key>")]

/-- `RequireNamespace(allowedNamespaces)` applied to a request whose
`namespace` path parameter is `ns` (empty when the route has none). -/
def RequireNamespace (allowedNamespaces : List String) (ns : String) : Flow :=
  if ns = "" then Flow.next
  else if allowedNamespaces.length = 0 then Flow.next
  else if allowedNamespaces.any (fun allowed => ns == allowed) then Flow.next
  else Flow.abort 403 [("error", "Access to namespace denied"), ("namespace", ns)]

end middleware

/-! ## Panics -/

/-- The outcome of a Go call that may panic: it returns a value, or it panics
with a message and does not return. -/
inductive Returned (α : Type)
  | value (a : α)
  | panic (msg : String)
  deriving DecidableEq, Repr

/-! ## `config/config.go` -/

namespace config

/-- The `Config` struct. -/
structure Config where
  Port : String
  LogLevel : String
  deriving DecidableEq, Repr

def DefaultPort : String := "8080"
def DefaultLogLevel : String := "info"

/-- The value of a run of decimal digits read left to right with `acc` as the
value so far; `none` when a character is not a decimal digit. -/
def digitsValue (acc : Nat) : List Char → Option Nat
  | [] => some acc
  | c :: cs =>
    if '0' ≤ c ∧ c ≤ '9' then digitsValue (acc * 10 + (c.toNat - '0'.toNat)) cs else none

/-- `strconv.Atoi` of the Go standard library: an optional sign, then one or
more decimal digits and nothing else; the value must fit the 64-bit `int`.
`none` stands for a returned error. -/
def Atoi (s : String) : Option Int :=
  match s.data with
  | [] => none
  | '-' :: ds =>
    if ds = [] then none
    else (digitsValue 0 ds).bind fun n => if n ≤ 2 ^ 63 then some (-(n : Int)) else none
  | '+' :: ds =>
    if ds = [] then none
    else (digitsValue 0 ds).bind fun n => if n < 2 ^ 63 then some (n : Int) else none
  | ds => (digitsValue 0 ds).bind fun n => if n < 2 ^ 63 then some (n : Int) else none

/-- The `validLogLevels` map of `validate`, as its lookup. -/
def validLogLevels (level : String) : Bool :=
  level == "debug" || level == "info" || level == "warn" || level == "error" ||
    level == "fatal"

/-- `Config.validate`: `none` is a nil error. -/
def Config.validate (c : Config) : Option GoError :=
  match Atoi c.Port with
  | none => some (GoError.plain ("invalid port: " ++ c.Port))
  | some port =>
    if port < 1 ∨ port > 65535 then some (GoError.plain ("invalid port: " ++ c.Port))
    else if !(validLogLevels c.LogLevel) then
      some (GoError.plain ("invalid log level: " ++ c.LogLevel))
    else none

/-- `getEnv`: the variable when it is set and not empty, else the default
(`env` is `os.Getenv`). -/
def getEnv (env : String → String) (key defaultValue : String) : String :=
  if env key ≠ "" then env key else defaultValue

/-- The package variables `instance` and `once`: the stored configuration, and
whether `once.Do` has run its function (it counts as run even when the
function panicked). -/
structure Globals where
  inst : Option Config
  onceDone : Bool
  deriving DecidableEq, Repr

/-- The package variables at program start. -/
def Globals.start : Globals :=
  { inst := none, onceDone := false }

/-- `GetConfig`: on the first call build the configuration from the
environment, store it, and panic if it is invalid; on later calls return what
is stored. -/
def GetConfig (g : Globals) (env : String → String) : Returned (Option Config) × Globals :=
  if g.onceDone then (Returned.value g.inst, g)
  else
    let made : Config :=
      { Port := getEnv env "PORT" DefaultPort
        LogLevel := getEnv env "LOG_LEVEL" DefaultLogLevel }
    let g1 : Globals := { inst := some made, onceDone := true }
    match made.validate with
    | some err => (Returned.panic ("invalid configuration: " ++ err.Error), g1)
    | none => (Returned.value (some made), g1)

end config

/-! ## `handlers/health.go` and its wiring in `main.go` -/

namespace handlers

/-- A `kubernetes.Interface` value as `Ready` uses it: the outcome of listing
the deployments of a namespace (`none` is a nil error). -/
structure KubernetesInterface where
  ListDeployments : String → Option GoError

/-- The `k8s.Client` struct: its `clientset` field holds a
`kubernetes.Interface`, possibly nil. -/
structure ClientStruct where
  clientset : Option KubernetesInterface

/-- A Go value of the interface type `k8s.ClientInterface`: the nil interface;
a `*k8s.Client`, a pointer that may itself be nil while the interface holding
it is not; or the test mock, whose `GetClientset` returns what it was told. -/
inductive ClientValue
  | nilInterface
  | clientPtr (p : Option ClientStruct)
  | mock (clientset : Option KubernetesInterface)

/-- The comparison `k8sClient == nil` on an interface value: true for the nil
interface only. -/
def ClientValue.isNil : ClientValue → Bool
  | ClientValue.nilInterface => true
  | ClientValue.clientPtr _ => false
  | ClientValue.mock _ => false

/-- The method call `k8sClient.GetClientset()`.  `(*Client).GetClientset`
reads `c.clientset`, so a nil receiver panics; a method call on the nil
interface panics too. -/
def ClientValue.GetClientset : ClientValue → Returned (Option KubernetesInterface)
  | ClientValue.nilInterface =>
    Returned.panic "runtime error: invalid memory address or nil pointer dereference"
  | ClientValue.clientPtr none =>
    Returned.panic "runtime error: invalid memory address or nil pointer dereference"
  | ClientValue.clientPtr (some c) => Returned.value c.clientset
  | ClientValue.mock cs => Returned.value cs

/-- The `HealthHandler` struct. -/
structure HealthHandler where
  k8sClient : ClientValue

/-- `NewHealthHandler`. -/
def NewHealthHandler (k8sClient : ClientValue) : HealthHandler :=
  { k8sClient := k8sClient }

/-- `HealthHandler.Ready`: the status code and the JSON object written, with
`time` the formatted current time. -/
def HealthHandler.Ready (h : HealthHandler) (time : String) :
    Returned (Nat × List (String × String)) :=
  if h.k8sClient.isNil then
    Returned.value (503, [("status", "not ready"),
      ("error", "Kubernetes client not available"), ("time", time)])
  else
    match h.k8sClient.GetClientset with
    | Returned.panic msg => Returned.panic msg
    | Returned.value none =>
      Returned.value (503, [("status", "not ready"),
        ("error", "Kubernetes client not available"), ("time", time)])
    | Returned.value (some clientset) =>
      match clientset.ListDeployments "scale-system" with
      | some _ =>
        Returned.value (503, [("status", "not ready"),
          ("error", "unable to connect to Kubernetes API"), ("time", time)])
      | none =>
        Returned.value (200, [("status", "ready"), ("kubernetes", "connected"),
          ("time", time)])

/-- `k8s.NewClient`: `getConfig` and `kubernetes.NewForConfig` are the two
steps that can fail; on failure the returned `*Client` is nil. -/
def NewClient (getConfig : Option GoError) (newForConfig : Except GoError KubernetesInterface) :
    Option ClientStruct × Option GoError :=
  match getConfig with
  | some err => (none, some (GoError.wrapf "failed to get kubernetes config: " err))
  | none =>
    match newForConfig with
    | Except.error err =>
      (none, some (GoError.wrapf "failed to create kubernetes client: " err))
    | Except.ok clientset => (some { clientset := some clientset }, none)

/-- The health handler `main` builds: `k8sClient` is the `*k8s.Client` returned
by `NewClient`, kept even when `NewClient` failed, and it is passed where a
`k8s.ClientInterface` is expected. -/
def mainHealthHandler (getConfig : Option GoError)
    (newForConfig : Except GoError KubernetesInterface) : HealthHandler :=
  NewHealthHandler (ClientValue.clientPtr (NewClient getConfig newForConfig).1)

/-- `gin.Recovery()`: a panic in a handler is answered with 500 and no body. -/
def Recovery (r : Returned (Nat × List (String × String))) : Nat × List (String × String) :=
  match r with
  | Returned.value resp => resp
  | Returned.panic _ => (500, [])

end handlers

/-! ## `utils/response.go` -/

namespace utils

/-- Two's-complement wrap-around of the 64-bit Go `int`. -/
def wrapInt (x : Int) : Int :=
  (x + 2 ^ 63) % 2 ^ 64 - 2 ^ 63

/-- The `Response` envelope with payload type `α` (`Data` is `none` when
nil). -/
structure Response (α : Type) where
  Success : Bool
  Message : String
  Data : Option α
  Error : String
  Timestamp : Nat
  deriving DecidableEq, Repr

/-- The `PaginatedResponse` payload. -/
structure PaginatedResponse (α : Type) where
  Items : α
  Total : Int
  Page : Int
  PerPage : Int
  TotalPages : Int
  deriving DecidableEq, Repr

/-- `SendSuccess`: the status code and body written. -/
def SendSuccess {α : Type} (statusCode : Nat) (message : String) (data : Option α)
    (now : Nat) : Nat × Response α :=
  (statusCode,
    { Success := true, Message := message, Data := data, Error := "", Timestamp := now })

/-- The `OK` helper. -/
def OK {α : Type} (message : String) (data : Option α) (now : Nat) : Nat × Response α :=
  SendSuccess 200 message data now

/-- `SendPaginated`: `totalPages := (total + perPage - 1) / perPage` in
64-bit `int` arithmetic, where `/` truncates toward zero and a zero divisor
panics. -/
def SendPaginated {α : Type} (items : α) (total page perPage : Int) (now : Nat) :
    Returned (Nat × Response (PaginatedResponse α)) :=
  if perPage = 0 then Returned.panic "runtime error: integer divide by zero"
  else
    let totalPages := wrapInt (Int.tdiv (wrapInt (wrapInt (total + perPage) - 1)) perPage)
    Returned.value (OK "Data retrieved successfully"
      (some
        { Items := items
          Total := total
          Page := page
          PerPage := perPage
          TotalPages := totalPages }) now)

end utils

/-! ## Concrete clusters used to exercise the theorems -/

/-- A deployment with three desired and three running replicas, two of them
available. -/
def demoDeployment : Deployment :=
  { Name := "test-app"
    Namespace := "test-ns"
    ResourceVersion := 1
    CreationTimestamp := 100
    Replicas := some 3
    StatusReplicas := 3
    UpdatedReplicas := 2
    AvailableReplicas := 2 }

/-- A quiet cluster holding `demoDeployment` only. -/
def demoCluster : Clientset :=
  { tracker := [demoDeployment], script := [], actions := [] }

/-- The production handler: a `DeploymentHandler` over the real client. -/
def demoHandler : handlers.DeploymentHandler Clientset :=
  handlers.NewDeploymentHandler k8s.Client

/-- A quiet cluster whose deployment has all three replicas available. -/
def readyCluster : Clientset :=
  { tracker := [{ demoDeployment with UpdatedReplicas := 3, AvailableReplicas := 3 }]
    script := []
    actions := [] }

/-- A cluster with no deployment at all. -/
def emptyCluster : Clientset :=
  { tracker := [], script := [], actions := [] }

/-- The cluster of `TestScaleDeployment_MaxRetries`: the read is served, the
update is answered with a conflict. -/
def conflictCluster : Clientset :=
  { tracker := [demoDeployment]
    script := [EnvStep.quiet, EnvStep.fail (NewConflict "test-app")]
    actions := [] }

/-- A cluster whose update call is refused for lack of authorization. -/
def forbiddenCluster : Clientset :=
  { tracker := [demoDeployment]
    script := [EnvStep.quiet,
      EnvStep.fail (GoError.status StatusReason.Forbidden 403 "deployments.apps is forbidden")]
    actions := [] }

/-- A cluster in which another client scales the deployment to 5 between the
read and the update of the next `ScaleDeployment` call; afterwards the world
is quiet. -/
def raceCluster : Clientset :=
  { tracker := [demoDeployment]
    script := [EnvStep.quiet, EnvStep.scale "test-ns" "test-app" 5]
    actions := [] }

/-- A quiet cluster whose deployment is scaled to zero. -/
def idleCluster : Clientset :=
  { tracker := [{ demoDeployment with
      Replicas := some 0, StatusReplicas := 0, UpdatedReplicas := 0, AvailableReplicas := 0 }]
    script := []
    actions := [] }

/-- A cluster in which the deployment is deleted by another client after the
next call has been served. -/
def vanishingCluster : Clientset :=
  { tracker := [demoDeployment]
    script := [EnvStep.quiet, EnvStep.delete "test-ns" "test-app"]
    actions := [] }

/-- A cluster whose next call is refused for lack of authorization. -/
def unauthorizedCluster : Clientset :=
  { tracker := [demoDeployment]
    script := [EnvStep.fail
      (GoError.status StatusReason.Forbidden 403 "deployments.apps is forbidden")]
    actions := [] }

/-- A quiet cluster whose deployment has no explicit replica count
(`Spec.Replicas` is nil). -/
def bareCluster : Clientset :=
  { tracker := [{ demoDeployment with Replicas := none }], script := [], actions := [] }

/-! ## The status classifier (`GetStatus`) -/

section Classifier

open handlers

/-- What `GetStatus` reports after a successful read: 200 and the status the
classifier block derives from the snapshot. -/
theorem getStatus_of_read {σ : Type} (h : DeploymentHandler σ) (s s1 : σ) (ns name : String)
    (now : Nat) (status : k8s.DeploymentStatus)
    (hread : h.k8sClient.GetDeploymentStatus s ns name = (Except.ok status, s1)) :
    (h.GetStatus s ns name now).1.1 = 200 ∧
      reportedStatus (h.GetStatus s ns name now).1 = some (determineStatus status) := by
  simp [DeploymentHandler.GetStatus, hread, reportedStatus]

/-- C1: for every pair of replica counts (desired, current), non-negative ones
in particular, the lifecycle state `GetStatus` reports after a successful read
is "inactive" when desired = 0, "active" when desired is not 0 and current =
desired, and "scaling" when desired is not 0 and current differs from desired. -/
theorem getStatus_classifies {σ : Type} (h : DeploymentHandler σ) (s s1 : σ) (ns name : String)
    (now : Nat) (status : k8s.DeploymentStatus)
    (hread : h.k8sClient.GetDeploymentStatus s ns name = (Except.ok status, s1)) :
    (status.DesiredReplicas = 0 →
        reportedStatus (h.GetStatus s ns name now).1 = some "inactive") ∧
      (status.DesiredReplicas ≠ 0 → status.CurrentReplicas = status.DesiredReplicas →
        reportedStatus (h.GetStatus s ns name now).1 = some "active") ∧
      (status.DesiredReplicas ≠ 0 → status.CurrentReplicas ≠ status.DesiredReplicas →
        reportedStatus (h.GetStatus s ns name now).1 = some "scaling") := by
  rw [(getStatus_of_read h s s1 ns name now status hread).2]
  refine ⟨?_, ?_, ?_⟩
  · intro hd
    simp [determineStatus, hd, models.StatusInactive]
  · intro hd hc
    simp [determineStatus, hd, hc, models.StatusActive]
  · intro hd hc
    simp [determineStatus, hd, hc, models.StatusScaling]

/-- The snapshot the real client reads from `demoCluster`. -/
theorem demo_read :
    demoHandler.k8sClient.GetDeploymentStatus demoCluster "test-ns" "test-app" =
      (Except.ok
        { Name := "test-app", Namespace := "test-ns", DesiredReplicas := 3,
          CurrentReplicas := 3, AvailableReplicas := 2, UpdatedReplicas := 2,
          CreationTime := 100 },
        { demoCluster with actions := [Action.get "test-ns" "test-app"] }) := by
  rfl

/-- Witness for C1: on `demoCluster` (desired 3, current 3) the production
handler reports "active". -/
theorem getStatus_classifies_witness :
    reportedStatus (demoHandler.GetStatus demoCluster "test-ns" "test-app" 7).1 = some "active" :=
  (getStatus_classifies demoHandler demoCluster _ "test-ns" "test-app" 7 _ demo_read).2.1
    (by decide) (by decide)

/-- C2: the classification inside `GetStatus` is total and never yields
"unknown": after every successful read, whatever the desired and current
counts, the response is 200 and its status is one of "active", "inactive",
"scaling". -/
theorem getStatus_never_unknown {σ : Type} (h : DeploymentHandler σ) (s s1 : σ)
    (ns name : String) (now : Nat) (status : k8s.DeploymentStatus)
    (hread : h.k8sClient.GetDeploymentStatus s ns name = (Except.ok status, s1)) :
    (reportedStatus (h.GetStatus s ns name now).1 = some "active" ∨
        reportedStatus (h.GetStatus s ns name now).1 = some "inactive" ∨
        reportedStatus (h.GetStatus s ns name now).1 = some "scaling") ∧
      reportedStatus (h.GetStatus s ns name now).1 ≠ some models.StatusUnknown ∧
      reportedStatus (h.GetStatus s ns name now).1 ≠ none := by
  rw [(getStatus_of_read h s s1 ns name now status hread).2]
  unfold determineStatus
  split_ifs <;> simp [models.StatusActive, models.StatusInactive, models.StatusScaling,
    models.StatusUnknown]

/-- Witness for C2 on `demoCluster`. -/
theorem getStatus_never_unknown_witness :
    reportedStatus (demoHandler.GetStatus demoCluster "test-ns" "test-app" 7).1 ≠
      some models.StatusUnknown :=
  (getStatus_never_unknown demoHandler demoCluster _ "test-ns" "test-app" 7 _ demo_read).2.1

/-- C3: the lifecycle state `GetStatus` reports does not depend on the
available or updated replica counts: two successful reads that agree on the
desired and current counts are reported with the same status, and a snapshot
with desired = current, not 0, and available below current is "active". -/
theorem getStatus_ignores_available {σ τ : Type} (h : DeploymentHandler σ)
    (h2 : DeploymentHandler τ) (s s1 : σ) (t t1 : τ) (ns name ns2 name2 : String)
    (now now2 : Nat) (a b : k8s.DeploymentStatus)
    (hread : h.k8sClient.GetDeploymentStatus s ns name = (Except.ok a, s1))
    (hread2 : h2.k8sClient.GetDeploymentStatus t ns2 name2 = (Except.ok b, t1))
    (hd : a.DesiredReplicas = b.DesiredReplicas)
    (hc : a.CurrentReplicas = b.CurrentReplicas) :
    reportedStatus (h.GetStatus s ns name now).1 =
        reportedStatus (h2.GetStatus t ns2 name2 now2).1 ∧
      (a.DesiredReplicas ≠ 0 → a.CurrentReplicas = a.DesiredReplicas →
        a.AvailableReplicas < a.CurrentReplicas →
        reportedStatus (h.GetStatus s ns name now).1 = some "active") := by
  rw [(getStatus_of_read h s s1 ns name now a hread).2,
    (getStatus_of_read h2 t t1 ns2 name2 now2 b hread2).2]
  refine ⟨?_, ?_⟩
  · simp [determineStatus, hd, hc]
  · intro h0 h1 _
    simp [determineStatus, h0, h1, models.StatusActive]

/-- The snapshot the real client reads from `readyCluster`. -/
theorem ready_read :
    demoHandler.k8sClient.GetDeploymentStatus readyCluster "test-ns" "test-app" =
      (Except.ok
        { Name := "test-app", Namespace := "test-ns", DesiredReplicas := 3,
          CurrentReplicas := 3, AvailableReplicas := 3, UpdatedReplicas := 3,
          CreationTime := 100 },
        { readyCluster with actions := [Action.get "test-ns" "test-app"] }) := by
  rfl

/-- Witness for C3: `demoCluster` (available 2 of 3) and `readyCluster`
(available 3 of 3) are reported alike, and `demoCluster` is "active". -/
theorem getStatus_ignores_available_witness :
    reportedStatus (demoHandler.GetStatus demoCluster "test-ns" "test-app" 7).1 =
        reportedStatus (demoHandler.GetStatus readyCluster "test-ns" "test-app" 9).1 ∧
      reportedStatus (demoHandler.GetStatus demoCluster "test-ns" "test-app" 7).1 =
        some "active" :=
  ⟨(getStatus_ignores_available demoHandler demoHandler demoCluster _ readyCluster _
      "test-ns" "test-app" "test-ns" "test-app" 7 9 _ _ demo_read ready_read rfl rfl).1,
    (getStatus_ignores_available demoHandler demoHandler demoCluster _ readyCluster _
      "test-ns" "test-app" "test-ns" "test-app" 7 9 _ _ demo_read ready_read rfl rfl).2
      (by decide) (by decide) (by decide)⟩

end Classifier

/-! ## The cluster API model: basic facts -/

section Store

theorem lookup_key {objs : List Deployment} {ns name : String} {d : Deployment}
    (h : lookup objs ns name = some d) : d.Namespace = ns ∧ d.Name = name := by
  have := List.find?_some h
  simpa using this

theorem lookup_amend (objs : List Deployment) (ns name : String) (f : Deployment → Deployment)
    (hf : ∀ d, d.Namespace = ns → d.Name = name → (f d).Namespace = ns ∧ (f d).Name = name) :
    lookup (amend objs ns name f) ns name = (lookup objs ns name).map f := by
  induction objs with
  | nil => rfl
  | cons x xs ih =>
    unfold lookup amend at ih ⊢
    by_cases hx : x.Namespace = ns ∧ x.Name = name
    · have hfx := hf x hx.1 hx.2
      simp [List.find?_cons, hx, hfx]
    · simp only [List.map_cons, List.find?_cons, hx, if_false, decide_False]
      exact ih

namespace Clientset

theorem advance_actions (c : Clientset) : c.advance.1.actions = c.actions := by
  unfold advance
  split <;> rfl

theorem advance_nil (c : Clientset) (h : c.script = []) : c.advance = (c, none) := by
  unfold advance
  rw [h]

theorem advance_record (c : Clientset) (a : Action) :
    (c.record a).advance = (c.advance.1.record a, c.advance.2) := by
  unfold advance record
  cases hs : c.script with
  | nil => simp [hs]
  | cons st rest => cases st <;> simp [hs]

theorem Get_state (c : Clientset) (ns name : String) :
    (c.Get ns name).2 = c.advance.1.record (Action.get ns name) := by
  unfold Get
  dsimp only
  split
  · rfl
  · split <;> rfl

theorem Get_ok {c c1 : Clientset} {ns name : String} {d : Deployment}
    (h : c.Get ns name = (Except.ok d, c1)) :
    c.advance.2 = none ∧ c.advance.1.find ns name = some d ∧
      c1 = c.advance.1.record (Action.get ns name) := by
  have hs := Get_state c ns name
  rw [h] at hs
  unfold Get at h
  dsimp only at h
  split at h
  · simp at h
  · rename_i hnone
    split at h
    · simp at h
    · rename_i d2 hfind
      simp only [Prod.mk.injEq, Except.ok.injEq] at h
      refine ⟨hnone, ?_, hs⟩
      rw [← h.1]
      simpa [find, record] using hfind

theorem Update_actions (c : Clientset) (ns : String) (obj : Deployment) :
    (c.Update ns obj).2.actions = c.actions ++ [Action.update ns obj] := by
  unfold Update
  dsimp only
  split
  · simp [record, advance_actions]
  · split
    · simp [record, advance_actions]
    · split
      · simp [record, advance_actions]
      · split <;> simp [record, advance_actions]

theorem Update_error {c c2 : Clientset} {ns : String} {obj : Deployment} {e : GoError}
    (h : c.Update ns obj = (Except.error e, c2)) :
    c2 = c.advance.1.record (Action.update ns obj) := by
  unfold Update at h
  dsimp only at h
  split at h
  · simp only [Prod.mk.injEq] at h
    exact h.2.symm
  · split at h
    · simp only [Prod.mk.injEq] at h
      exact h.2.symm
    · split at h
      · simp only [Prod.mk.injEq] at h
        exact h.2.symm
      · split at h
        · simp only [Prod.mk.injEq] at h
          exact h.2.symm
        · simp at h

theorem Update_ok {c c2 : Clientset} {ns : String} {obj st : Deployment}
    (h : c.Update ns obj = (Except.ok st, c2)) :
    c2.find ns obj.Name = some st ∧ st.Replicas = obj.Replicas ∧ c2.script = c.advance.1.script := by
  unfold Update at h
  dsimp only at h
  split at h
  · simp at h
  · split at h
    · simp at h
    · rename_i hns
      split at h
      · simp at h
      · rename_i cur hfind
        split at h
        · simp at h
        · simp only [Prod.mk.injEq, Except.ok.injEq] at h
          obtain ⟨h1, h2⟩ := h
          subst h2
          refine ⟨?_, ?_, ?_⟩
          · simp only [find] at hfind ⊢
            rw [lookup_amend _ _ _ _ (by
              intro d _ _
              exact ⟨by simpa using hns, rfl⟩), hfind]
            simp [h1]
          · rw [← h1]
          · rfl

/-- An accepted update is a commit: the submitted object carried the stored
resource version, the object stored is the submitted one under the next
version, and the store afterwards is the store the environment step left, with
that one object replaced. -/
theorem Update_commit {c c2 : Clientset} {ns : String} {obj st : Deployment}
    (h : c.Update ns obj = (Except.ok st, c2)) :
    st.ResourceVersion = obj.ResourceVersion + 1 ∧ st.Name = obj.Name ∧
      st.Namespace = obj.Namespace ∧
      c2.tracker = amend c.advance.1.tracker ns obj.Name (fun _ => st) ∧
      c.advance.2 = none := by
  unfold Update at h
  dsimp only at h
  split at h
  · simp at h
  · rename_i hstep
    split at h
    · simp at h
    · split at h
      · simp at h
      · rename_i cur hfind
        split at h
        · simp at h
        · rename_i hver
          simp only [Prod.mk.injEq, Except.ok.injEq] at h
          obtain ⟨h1, h2⟩ := h
          subst h2
          have hv : obj.ResourceVersion = cur.ResourceVersion := by
            by_contra hne
            exact hver hne
          refine ⟨?_, ?_, ?_, ?_, hstep⟩
          · rw [← h1, hv]
          · rw [← h1]
          · rw [← h1]
          · simp [record, h1]

end Clientset

end Store

/-! ## The scaling controller (`ScaleDeployment`, `GetDeploymentStatus`) -/

section Controller

open k8s

namespace Clientset

theorem find_record (c : Clientset) (a : Action) (ns name : String) :
    (c.record a).find ns name = c.find ns name := rfl

theorem Get_absent (c : Clientset) (ns name : String) (hfault : c.advance.2 = none)
    (habsent : c.advance.1.find ns name = none) :
    c.Get ns name = (Except.error (NewNotFound name), c.advance.1.record (Action.get ns name)) := by
  unfold Get
  simp [hfault, find_record, habsent]

theorem Get_quiet (c : Clientset) (ns name : String) (d : Deployment) (hs : c.script = [])
    (hd : c.find ns name = some d) :
    c.Get ns name = (Except.ok d, c.record (Action.get ns name)) := by
  unfold Get
  simp [advance_nil c hs, find_record, hd]

theorem reads_append {c c2 : Clientset} {acts : List Action}
    (h : c2.actions = c.actions ++ acts) :
    c2.reads = c.reads + (acts.filter Action.isGet).length := by
  simp [reads, h, List.filter_append]

theorem writes_append {c c2 : Clientset} {acts : List Action}
    (h : c2.actions = c.actions ++ acts) :
    c2.writes = c.writes + (acts.filter Action.isUpdate).length := by
  simp [writes, h, List.filter_append]

theorem drift_two (c : Clientset) : c.drift 2 = c.advance.1.advance.1 := rfl

end Clientset

/-- The three ways a `ScaleDeployment` call can go: the read fails, the update
fails, or both succeed. -/
theorem scaleDeployment_cases (c : Clientset) (ns name : String) (replicas : Int) :
    (∃ e c1, c.Get ns name = (Except.error e, c1) ∧
        ScaleDeployment c ns name replicas =
          (some (GoError.wrapf ("failed to get deployment " ++ ns ++ "/" ++ name ++ ": ") e), c1)) ∨
      (∃ d c1 e c2, c.Get ns name = (Except.ok d, c1) ∧
        c1.Update ns { d with Replicas := some replicas } = (Except.error e, c2) ∧
        ScaleDeployment c ns name replicas =
          (some (GoError.wrapf ("failed to update deployment " ++ ns ++ "/" ++ name ++ ": ") e),
            c2)) ∨
      (∃ d c1 st c2, c.Get ns name = (Except.ok d, c1) ∧
        c1.Update ns { d with Replicas := some replicas } = (Except.ok st, c2) ∧
        ScaleDeployment c ns name replicas = (none, c2)) := by
  rcases hg : c.Get ns name with ⟨r, c1⟩
  cases r with
  | error e =>
    left
    exact ⟨e, c1, rfl, by simp [ScaleDeployment, hg]⟩
  | ok d =>
    right
    rcases hu : c1.Update ns { d with Replicas := some replicas } with ⟨r2, c2⟩
    cases r2 with
    | error e =>
      left
      exact ⟨d, c1, e, c2, rfl, hu, by simp [ScaleDeployment, hg, hu]⟩
    | ok st =>
      right
      exact ⟨d, c1, st, c2, rfl, hu, by simp [ScaleDeployment, hg, hu]⟩

/-- The calls a `ScaleDeployment` whose read succeeded has made when it
returns: the read, then one update of the object read with the new count. -/
theorem scaleDeployment_actions {c c1 : Clientset} {ns name : String} {d : Deployment}
    (replicas : Int) (hg : c.Get ns name = (Except.ok d, c1)) :
    (ScaleDeployment c ns name replicas).2.actions =
      c.actions ++
        [Action.get ns name, Action.update ns { d with Replicas := some replicas }] := by
  have hact := Clientset.Update_actions c1 ns { d with Replicas := some replicas }
  have hc1 := (Clientset.Get_ok hg).2.2
  have h1 : c1.actions = c.actions ++ [Action.get ns name] := by
    rw [hc1]
    simp [Clientset.record, Clientset.advance_actions]
  rcases hu : c1.Update ns { d with Replicas := some replicas } with ⟨r2, c2⟩
  rw [hu] at hact
  cases r2 <;> simp [ScaleDeployment, hg, hu] <;> simpa [h1] using hact

theorem isNotFound_wrapf (pre : String) (e : GoError) :
    IsNotFound (GoError.wrapf pre e) = IsNotFound e := rfl

theorem isConflict_wrapf (pre : String) (e : GoError) :
    IsConflict (GoError.wrapf pre e) = IsConflict e := rfl

theorem isNotFound_new (name : String) : IsNotFound (NewNotFound name) = true := rfl

theorem GoError.Is_self (e : GoError) : e.Is e = true := by
  unfold GoError.Is
  simp

theorem GoError.Is_wrapf (pre : String) (e : GoError) : (GoError.wrapf pre e).Is e = true := by
  unfold GoError.Is
  simp [GoError.Is_self]

/-- C4: whenever `ScaleDeployment(ns, name, target)` returns no error, the
deployment stored in the cluster API has desired replica count
(`Spec.Replicas`) equal to `target` when the call returns. -/
theorem scaleDeployment_postcondition (c : Clientset) (ns name : String) (target : Int)
    (hok : (ScaleDeployment c ns name target).1 = none) :
    (ScaleDeployment c ns name target).2.desired ns name = some target := by
  rcases scaleDeployment_cases c ns name target with
    ⟨e, c1, _, hr⟩ | ⟨d, c1, e, c2, _, _, hr⟩ | ⟨d, c1, st, c2, hg, hu, hr⟩
  · rw [hr] at hok
    simp at hok
  · rw [hr] at hok
    simp at hok
  · rw [hr]
    have hkey := lookup_key (Clientset.Get_ok hg).2.1
    have hst := Clientset.Update_ok hu
    simp only [hkey.2] at hst
    simp [Clientset.desired, hst.1, hst.2.1]

/-- Witness for C4: scaling `demoCluster` from 3 to 0 succeeds and leaves the
stored desired count at 0 (the setting of `TestScaleDeployment_Success`). -/
theorem scaleDeployment_postcondition_witness :
    (ScaleDeployment demoCluster "test-ns" "test-app" 0).1 = none ∧
      (ScaleDeployment demoCluster "test-ns" "test-app" 0).2.desired "test-ns" "test-app" =
        some 0 :=
  ⟨rfl, scaleDeployment_postcondition demoCluster "test-ns" "test-app" 0 rfl⟩

/-- C8: if the deployment does not exist when the read is served (and the read
itself is not failed by the environment), then `ScaleDeployment` and
`GetDeploymentStatus` both fail with an error that `IsNotFound` still
recognises, `GetDeploymentStatus` returns no status, and the only call either
makes is one read: no second read and no update. -/
theorem notFound_single_read (c : Clientset) (ns name : String) (target : Int)
    (hfault : c.advance.2 = none) (habsent : c.advance.1.find ns name = none) :
    (∃ e, (ScaleDeployment c ns name target).1 = some e ∧ IsNotFound e = true) ∧
      (ScaleDeployment c ns name target).2.actions = c.actions ++ [Action.get ns name] ∧
      (∃ e, (GetDeploymentStatus c ns name).1 = Except.error e ∧ IsNotFound e = true) ∧
      (GetDeploymentStatus c ns name).2.actions = c.actions ++ [Action.get ns name] := by
  have hg := Clientset.Get_absent c ns name hfault habsent
  have hs : ScaleDeployment c ns name target =
      (some (GoError.wrapf ("failed to get deployment " ++ ns ++ "/" ++ name ++ ": ")
        (NewNotFound name)), c.advance.1.record (Action.get ns name)) := by
    simp only [ScaleDeployment, hg]
  have hq : GetDeploymentStatus c ns name =
      (Except.error (GoError.wrapf ("failed to get deployment " ++ ns ++ "/" ++ name ++ ": ")
        (NewNotFound name)), c.advance.1.record (Action.get ns name)) := by
    simp only [GetDeploymentStatus, hg]
  rw [hs, hq]
  refine ⟨⟨_, rfl, ?_⟩, ?_, ⟨_, rfl, ?_⟩, ?_⟩
  · rw [isNotFound_wrapf, isNotFound_new]
  · simp [Clientset.record, Clientset.advance_actions]
  · rw [isNotFound_wrapf, isNotFound_new]
  · simp [Clientset.record, Clientset.advance_actions]

/-- Witness for C8 on a cluster with no deployment (the setting of
`TestScaleDeployment_NotFound` and `TestGetDeploymentStatus_NotFound`). -/
theorem notFound_single_read_witness :
    (ScaleDeployment emptyCluster "test-ns" "nonexistent" 2).2.actions =
        [Action.get "test-ns" "nonexistent"] ∧
      (GetDeploymentStatus emptyCluster "test-ns" "nonexistent").2.actions =
        [Action.get "test-ns" "nonexistent"] :=
  ⟨(notFound_single_read emptyCluster "test-ns" "nonexistent" 2 rfl rfl).2.1,
    (notFound_single_read emptyCluster "test-ns" "nonexistent" 2 rfl rfl).2.2.2⟩

/-- The read `ScaleDeployment` makes on `forbiddenCluster`. -/
theorem forbidden_get :
    forbiddenCluster.Get "test-ns" "test-app" =
      (Except.ok demoDeployment,
        { forbiddenCluster with
          script := [EnvStep.fail
            (GoError.status StatusReason.Forbidden 403 "deployments.apps is forbidden")]
          actions := [Action.get "test-ns" "test-app"] }) := by
  rfl

/-- The read `ScaleDeployment` makes on `conflictCluster`. -/
theorem conflict_get :
    conflictCluster.Get "test-ns" "test-app" =
      (Except.ok demoDeployment,
        { conflictCluster with
          script := [EnvStep.fail (NewConflict "test-app")]
          actions := [Action.get "test-ns" "test-app"] }) := by
  rfl

/-- C9: when the update of a `ScaleDeployment` call fails (for a reason other
than a version conflict: authorization, network, schema), the failure is
returned at once: the call has made exactly one read and exactly one update,
and the error returned wraps the underlying failure, which stays reachable by
`Unwrap` and `errors.Is` and keeps its text at the end of the message. -/
theorem update_failure_immediate (c c1 c2 : Clientset) (ns name : String) (target : Int)
    (d : Deployment) (e : GoError)
    (hg : c.Get ns name = (Except.ok d, c1))
    (hu : c1.Update ns { d with Replicas := some target } = (Except.error e, c2))
    (_hne : IsConflict e = false) :
    (∃ err, (ScaleDeployment c ns name target).1 = some err ∧ err.Unwrap = some e ∧
        err.Is e = true ∧
        err.Error = "failed to update deployment " ++ ns ++ "/" ++ name ++ ": " ++ e.Error) ∧
      (ScaleDeployment c ns name target).2.actions =
        c.actions ++ [Action.get ns name, Action.update ns { d with Replicas := some target }] ∧
      (ScaleDeployment c ns name target).2.reads = c.reads + 1 ∧
      (ScaleDeployment c ns name target).2.writes = c.writes + 1 := by
  have hact := scaleDeployment_actions target hg
  have hs : ScaleDeployment c ns name target =
      (some (GoError.wrapf ("failed to update deployment " ++ ns ++ "/" ++ name ++ ": ") e),
        c2) := by
    simp only [ScaleDeployment, hg, hu]
  refine ⟨⟨GoError.wrapf ("failed to update deployment " ++ ns ++ "/" ++ name ++ ": ") e,
    by rw [hs], rfl, GoError.Is_wrapf _ _, ?_⟩, hact, ?_, ?_⟩
  · simp [GoError.Error, String.append_assoc]
  · rw [Clientset.reads_append hact]
    rfl
  · rw [Clientset.writes_append hact]
    rfl

/-- Witness for C9: on `forbiddenCluster` the update is refused with 403 and
the call stops after one read and one update. -/
theorem update_failure_immediate_witness :
    (ScaleDeployment forbiddenCluster "test-ns" "test-app" 5).2.reads = 1 ∧
      (ScaleDeployment forbiddenCluster "test-ns" "test-app" 5).2.writes = 1 :=
  ⟨(update_failure_immediate forbiddenCluster _ _ "test-ns" "test-app" 5 demoDeployment
      (GoError.status StatusReason.Forbidden 403 "deployments.apps is forbidden")
      forbidden_get rfl rfl).2.2.1,
    (update_failure_immediate forbiddenCluster _ _ "test-ns" "test-app" 5 demoDeployment
      (GoError.status StatusReason.Forbidden 403 "deployments.apps is forbidden")
      forbidden_get rfl rfl).2.2.2⟩

/-- C10: every successful `ScaleDeployment` call performs exactly one update
against the cluster API, and that update is a durable write.  A nil result
means that the read returned an object `d`, that the one update the call made
submitted `d` with the desired count set to the target and was accepted by the
API, and that the call's state is the state that accepted update left: the
calls received are the read followed by that single update, the stored object
holds the target under the resource version after the one read, and the store
is the store the environment alone produced with that one object replaced. -/
theorem success_single_write (c : Clientset) (ns name : String) (target : Int)
    (hok : (ScaleDeployment c ns name target).1 = none) :
    ∃ (d : Deployment) (c1 : Clientset) (st : Deployment),
      c.Get ns name = (Except.ok d, c1) ∧
      c1.Update ns { d with Replicas := some target } =
        (Except.ok st, (ScaleDeployment c ns name target).2) ∧
      (ScaleDeployment c ns name target).2.actions =
        c.actions ++ [Action.get ns name, Action.update ns { d with Replicas := some target }] ∧
      (ScaleDeployment c ns name target).2.writes = c.writes + 1 ∧
      (ScaleDeployment c ns name target).2.reads = c.reads + 1 ∧
      (ScaleDeployment c ns name target).2.find ns name = some st ∧
      st.Replicas = some target ∧
      st.ResourceVersion = d.ResourceVersion + 1 ∧
      (ScaleDeployment c ns name target).2.tracker =
        amend (c.drift 2).tracker ns name (fun _ => st) := by
  rcases scaleDeployment_cases c ns name target with
    ⟨e, c1, _, hr⟩ | ⟨d, c1, e, c2, _, _, hr⟩ | ⟨d, c1, st, c2, hg, hu, hr⟩
  · rw [hr] at hok
    simp at hok
  · rw [hr] at hok
    simp at hok
  · have hact := scaleDeployment_actions target hg
    have hkey := lookup_key (Clientset.Get_ok hg).2.1
    have hst := Clientset.Update_ok hu
    have hcm := Clientset.Update_commit hu
    have hc1 := (Clientset.Get_ok hg).2.2
    simp only [hkey.2] at hst hcm
    have hw : (ScaleDeployment c ns name target).2.writes = c.writes + 1 := by
      rw [Clientset.writes_append hact]
      rfl
    have hrd : (ScaleDeployment c ns name target).2.reads = c.reads + 1 := by
      rw [Clientset.reads_append hact]
      rfl
    have htr : c2.tracker = amend (c.drift 2).tracker ns name (fun _ => st) := by
      rw [hcm.2.2.2.1, hc1, Clientset.advance_record, Clientset.drift_two]
      rfl
    rw [hr] at hact hw hrd ⊢
    exact ⟨d, c1, st, hg, hu, hact, hw, hrd, hst.1, hst.2.1, hcm.1, htr⟩

/-- Witness for C10: the successful call on `demoCluster` makes one update,
and the store then holds 0 replicas under resource version 2. -/
theorem success_single_write_witness :
    ∃ (d : Deployment) (c1 : Clientset) (st : Deployment),
      demoCluster.Get "test-ns" "test-app" = (Except.ok d, c1) ∧
      c1.Update "test-ns" { d with Replicas := some 0 } =
        (Except.ok st, (ScaleDeployment demoCluster "test-ns" "test-app" 0).2) ∧
      (ScaleDeployment demoCluster "test-ns" "test-app" 0).2.actions =
        demoCluster.actions ++
          [Action.get "test-ns" "test-app",
            Action.update "test-ns" { d with Replicas := some 0 }] ∧
      (ScaleDeployment demoCluster "test-ns" "test-app" 0).2.writes =
        demoCluster.writes + 1 ∧
      (ScaleDeployment demoCluster "test-ns" "test-app" 0).2.reads = demoCluster.reads + 1 ∧
      (ScaleDeployment demoCluster "test-ns" "test-app" 0).2.find "test-ns" "test-app" =
        some st ∧
      st.Replicas = some 0 ∧
      st.ResourceVersion = d.ResourceVersion + 1 ∧
      (ScaleDeployment demoCluster "test-ns" "test-app" 0).2.tracker =
        amend (demoCluster.drift 2).tracker "test-ns" "test-app" (fun _ => st) :=
  success_single_write demoCluster "test-ns" "test-app" 0 rfl

/-- C7: when the update submitted by `ScaleDeployment` on an existing
deployment is rejected with a conflict (the call makes one attempt, so this is
every attempt), the call returns an error that `IsConflict` still recognises,
with the conflict wrapped inside it, and the call leaves the stored objects
untouched: the store, and so the stored desired count, is what the environment
alone made of it. -/
theorem conflict_surfaced (c c1 c2 : Clientset) (ns name : String) (target : Int)
    (d : Deployment) (e : GoError)
    (hg : c.Get ns name = (Except.ok d, c1))
    (hu : c1.Update ns { d with Replicas := some target } = (Except.error e, c2))
    (hc : IsConflict e = true) :
    (∃ err, (ScaleDeployment c ns name target).1 = some err ∧ IsConflict err = true ∧
        err.Unwrap = some e) ∧
      (ScaleDeployment c ns name target).2.tracker = (c.drift 2).tracker ∧
      (ScaleDeployment c ns name target).2.desired ns name = (c.drift 2).desired ns name := by
  have hs : ScaleDeployment c ns name target =
      (some (GoError.wrapf ("failed to update deployment " ++ ns ++ "/" ++ name ++ ": ") e),
        c2) := by
    simp only [ScaleDeployment, hg, hu]
  have h2 := Clientset.Update_error hu
  have h1 := (Clientset.Get_ok hg).2.2
  have ht : c2.tracker = (c.drift 2).tracker := by
    rw [h2, h1, Clientset.advance_record, Clientset.drift_two]
    rfl
  rw [hs]
  refine ⟨⟨_, rfl, ?_, rfl⟩, ht, ?_⟩
  · rw [isConflict_wrapf, hc]
  · simp only [Clientset.desired, Clientset.find]
    rw [ht]

/-- Witness for C7, the setting of `TestScaleDeployment_MaxRetries`: the
update is answered with a conflict, and the stored desired count is still 3. -/
theorem conflict_surfaced_witness :
    (ScaleDeployment conflictCluster "test-ns" "test-app" 5).2.desired "test-ns" "test-app" =
      some 3 :=
  (conflict_surfaced conflictCluster _ _ "test-ns" "test-app" 5 demoDeployment
    (NewConflict "test-app") conflict_get rfl rfl).2.2.trans rfl

/-- The read `ScaleDeployment` makes on `raceCluster`. -/
theorem race_get :
    raceCluster.Get "test-ns" "test-app" =
      (Except.ok demoDeployment,
        { raceCluster with
          script := [EnvStep.scale "test-ns" "test-app" 5]
          actions := [Action.get "test-ns" "test-app"] }) := by
  rfl

/-- C6, the code at the failing input: on `raceCluster` another writer commits
a desired count of 5 between the read and the update of
`ScaleDeployment(test-ns, test-app, 2)`.  The update is rejected with a
stale-version conflict; a fresh read would return resource version 2 and an
update made from it would be accepted; yet the call makes no second attempt,
returns the conflict wrapped in an error, and the stored desired count stays
5, not 2. -/
theorem conflict_not_retried :
    ((raceCluster.Get "test-ns" "test-app").2.Update "test-ns"
        { demoDeployment with Replicas := some 2 }).1 =
        Except.error (NewConflict "test-app") ∧
      (((ScaleDeployment raceCluster "test-ns" "test-app" 2).2.Get "test-ns" "test-app").1 =
        Except.ok { demoDeployment with Replicas := some 5, ResourceVersion := 2 }) ∧
      ((((ScaleDeployment raceCluster "test-ns" "test-app" 2).2.Get "test-ns" "test-app").2.Update
          "test-ns" { demoDeployment with Replicas := some 2, ResourceVersion := 2 }).1 =
        Except.ok { demoDeployment with Replicas := some 2, ResourceVersion := 3 }) ∧
      (ScaleDeployment raceCluster "test-ns" "test-app" 2).1 =
        some (GoError.wrapf "failed to update deployment test-ns/test-app: "
          (NewConflict "test-app")) ∧
      (ScaleDeployment raceCluster "test-ns" "test-app" 2).2.desired "test-ns" "test-app" =
        some 5 ∧
      (ScaleDeployment raceCluster "test-ns" "test-app" 2).2.actions =
        [Action.get "test-ns" "test-app",
          Action.update "test-ns" { demoDeployment with Replicas := some 2 }] ∧
      ¬ ((ScaleDeployment raceCluster "test-ns" "test-app" 2).1 = none ∧
        (ScaleDeployment raceCluster "test-ns" "test-app" 2).2.desired "test-ns" "test-app" =
          some 2) := by
  refine ⟨rfl, rfl, rfl, rfl, rfl, rfl, ?_⟩
  intro h
  exact absurd h.1 (by decide)

end Controller

/-! ## Idempotency of the scale operations -/

section Idempotency

open k8s handlers

namespace Clientset

theorem Update_quiet (c : Clientset) (ns : String) (obj cur : Deployment) (hs : c.script = [])
    (hns : obj.Namespace = ns) (hcur : c.find ns obj.Name = some cur)
    (hv : obj.ResourceVersion = cur.ResourceVersion) :
    ∃ c2, c.Update ns obj =
      (Except.ok
        { obj with
          ResourceVersion := cur.ResourceVersion + 1
          StatusReplicas := cur.StatusReplicas
          UpdatedReplicas := cur.UpdatedReplicas
          AvailableReplicas := cur.AvailableReplicas }, c2) := by
  unfold Update
  simp [advance_nil c hs, find_record, hcur, hns, hv]

end Clientset

/-- In a quiet world a `ScaleDeployment` call on an existing deployment
succeeds, leaves the world quiet and stores the target under a new resource
version; nothing else of the object changes. -/
theorem scaleDeployment_quiet (c : Clientset) (ns name : String) (n : Int) (d : Deployment)
    (hs : c.script = []) (hd : c.find ns name = some d) :
    (ScaleDeployment c ns name n).1 = none ∧ (ScaleDeployment c ns name n).2.script = [] ∧
      (ScaleDeployment c ns name n).2.find ns name =
        some { d with Replicas := some n, ResourceVersion := d.ResourceVersion + 1 } := by
  have hg := Clientset.Get_quiet c ns name d hs hd
  have hkey := lookup_key hd
  have hs1 : (c.record (Action.get ns name)).script = [] := hs
  obtain ⟨c2, hu⟩ := Clientset.Update_quiet (c.record (Action.get ns name)) ns
    { d with Replicas := some n } d hs1 hkey.1
    (by rw [Clientset.find_record]; simpa [hkey.2] using hd) rfl
  have hok := Clientset.Update_ok hu
  have hr : ScaleDeployment c ns name n = (none, c2) := by
    simp only [ScaleDeployment, hg, hu]
  rw [hr]
  refine ⟨rfl, ?_, ?_⟩
  · rw [hok.2.2, Clientset.advance_nil _ hs1]
    exact hs
  · have h1 := hok.1
    simp only [hkey.2] at h1
    rw [h1]
    simp [hkey.2]

/-- In a quiet world `GetDeploymentStatus` on an existing deployment returns
its snapshot and leaves the store and the script alone. -/
theorem getDeploymentStatus_quiet (c : Clientset) (ns name : String) (d : Deployment)
    (hs : c.script = []) (hd : c.find ns name = some d) :
    GetDeploymentStatus c ns name =
      (Except.ok
        { Name := d.Name
          Namespace := d.Namespace
          DesiredReplicas := d.Replicas.getD 0
          CurrentReplicas := d.StatusReplicas
          AvailableReplicas := d.AvailableReplicas
          UpdatedReplicas := d.UpdatedReplicas
          CreationTime := d.CreationTimestamp }, c.record (Action.get ns name)) := by
  have hg := Clientset.Get_quiet c ns name d hs hd
  simp only [GetDeploymentStatus, hg]
  cases d.Replicas <;> rfl

theorem length_pos_of_ne_empty (s : String) (h : s ≠ "") : 0 < s.length := by
  by_contra hlen
  have h0 : s.data.length = 0 := by
    have : s.length = 0 := by omega
    exact this
  exact h (String.ext (List.length_eq_zero.mp h0))

/-- A scale-up payload with at least one replica, a replica count that fits
`int32`, and a reason of 1 to 500 characters binds without error. -/
theorem bind_valid (req : models.ScaleUpRequest) (hn : 1 ≤ req.Replicas)
    (hmax : req.Replicas ≤ 2147483647)
    (hr : req.Reason ≠ "") (hl : req.Reason.length ≤ 500) :
    ShouldBindScaleUpRequest (Body.json req) = Except.ok req := by
  have h32 : ¬ (req.Replicas < -2147483648 ∨ 2147483647 < req.Replicas) := by omega
  have h0 : req.Replicas ≠ 0 := by omega
  have h1 : ¬ req.Replicas < 1 := by omega
  have h2 : ¬ req.Reason.length < 1 := by
    have := length_pos_of_ne_empty req.Reason hr
    omega
  have h3 : ¬ req.Reason.length > 500 := by omega
  simp only [ShouldBindScaleUpRequest, h32, if_false]
  simp [bindingErrors, h0, h1, hr, h2, h3]

/-- A payload that binds is bound as it was sent. -/
theorem bind_json_eq (req r : models.ScaleUpRequest)
    (h : ShouldBindScaleUpRequest (Body.json req) = Except.ok r) : r = req := by
  simp only [ShouldBindScaleUpRequest] at h
  split at h
  · simp at h
  · split at h
    · simpa using h.symm
    · simp at h

/-- `ScaleToZero` through the production client in a quiet world. -/
theorem scaleToZero_quiet (c : Clientset) (ns name : String) (req : models.ScaleRequest)
    (now : Nat) (d : Deployment) (hs : c.script = []) (hd : c.find ns name = some d) :
    (demoHandler.ScaleToZero c ns name (Body.json req) now).1.1 = 200 ∧
      (demoHandler.ScaleToZero c ns name (Body.json req) now).1.2.Status = "success" ∧
      previousReplicas (demoHandler.ScaleToZero c ns name (Body.json req) now).1 =
        some (d.Replicas.getD 0) ∧
      (demoHandler.ScaleToZero c ns name (Body.json req) now).2.script = [] ∧
      (demoHandler.ScaleToZero c ns name (Body.json req) now).2.find ns name =
        some { d with Replicas := some 0, ResourceVersion := d.ResourceVersion + 1 } := by
  have hq := getDeploymentStatus_quiet c ns name d hs hd
  have hsd := scaleDeployment_quiet (c.record (Action.get ns name)) ns name 0 d hs
    (by rw [Clientset.find_record]; exact hd)
  rcases hr : ScaleDeployment (c.record (Action.get ns name)) ns name 0 with ⟨e, c2⟩
  rw [hr] at hsd
  obtain ⟨h1, h2, h3⟩ := hsd
  simp only at h1 h2 h3
  subst h1
  simp [DeploymentHandler.ScaleToZero, demoHandler, NewDeploymentHandler, Client,
    ShouldBindScaleRequest, hq, hr, previousReplicas, models.StatusSuccess, h2, h3]

/-- `ScaleUp` through the production client in a quiet world. -/
theorem scaleUp_quiet (c : Clientset) (ns name : String) (req : models.ScaleUpRequest)
    (now : Nat) (d : Deployment) (hs : c.script = []) (hd : c.find ns name = some d)
    (hn : 1 ≤ req.Replicas) (hmax : req.Replicas ≤ 2147483647)
    (hr : req.Reason ≠ "") (hl : req.Reason.length ≤ 500) :
    (demoHandler.ScaleUp c ns name (Body.json req) now).1.1 = 200 ∧
      (demoHandler.ScaleUp c ns name (Body.json req) now).1.2.Status = "success" ∧
      previousReplicas (demoHandler.ScaleUp c ns name (Body.json req) now).1 =
        some (d.Replicas.getD 0) ∧
      (demoHandler.ScaleUp c ns name (Body.json req) now).2.script = [] ∧
      (demoHandler.ScaleUp c ns name (Body.json req) now).2.find ns name =
        some { d with Replicas := some req.Replicas, ResourceVersion := d.ResourceVersion + 1 } := by
  have hb := bind_valid req hn hmax hr hl
  have hq := getDeploymentStatus_quiet c ns name d hs hd
  have hsd := scaleDeployment_quiet (c.record (Action.get ns name)) ns name req.Replicas d hs
    (by rw [Clientset.find_record]; exact hd)
  rcases hres : ScaleDeployment (c.record (Action.get ns name)) ns name req.Replicas with ⟨e, c2⟩
  rw [hres] at hsd
  obtain ⟨h1, h2, h3⟩ := hsd
  simp only at h1 h2 h3
  subst h1
  simp [DeploymentHandler.ScaleUp, demoHandler, NewDeploymentHandler, Client,
    hb, hq, hres, previousReplicas, models.StatusSuccess, h2, h3]

/-- C5: idempotency.  For an existing workload in a world with no external
mutation, scaling to the same `n` twice in a row succeeds both times and the
stored desired count is `n` after each call; through the handlers the second
call reports `previous_replicas = n`: `ScaleToZero` for `n = 0` (a workload
already at 0 is scaled again with 200 and previous 0) and `ScaleUp` for every
`n` from 1 to 2147483647, the positive values of the `int32` request field,
with a valid reason, which together cover every `int32` value `n ≥ 0`. -/
theorem scale_idempotent (c : Clientset) (ns name : String) (d : Deployment) (n : Int)
    (reason : String) (sched : Option Nat) (now1 now2 : Nat)
    (hquiet : c.script = []) (hex : c.find ns name = some d) :
    ((ScaleDeployment c ns name n).1 = none ∧
        (ScaleDeployment (ScaleDeployment c ns name n).2 ns name n).1 = none ∧
        (ScaleDeployment c ns name n).2.desired ns name = some n ∧
        (ScaleDeployment (ScaleDeployment c ns name n).2 ns name n).2.desired ns name =
          some n) ∧
      (n = 0 →
        (demoHandler.ScaleToZero c ns name (Body.json ⟨reason, sched⟩) now1).1.1 = 200 ∧
        (demoHandler.ScaleToZero
          (demoHandler.ScaleToZero c ns name (Body.json ⟨reason, sched⟩) now1).2
          ns name (Body.json ⟨reason, sched⟩) now2).1.1 = 200 ∧
        previousReplicas (demoHandler.ScaleToZero
          (demoHandler.ScaleToZero c ns name (Body.json ⟨reason, sched⟩) now1).2
          ns name (Body.json ⟨reason, sched⟩) now2).1 = some 0 ∧
        (demoHandler.ScaleToZero c ns name (Body.json ⟨reason, sched⟩) now1).2.desired ns name =
          some 0 ∧
        (demoHandler.ScaleToZero
          (demoHandler.ScaleToZero c ns name (Body.json ⟨reason, sched⟩) now1).2
          ns name (Body.json ⟨reason, sched⟩) now2).2.desired ns name = some 0) ∧
      (1 ≤ n → n ≤ 2147483647 → reason ≠ "" → reason.length ≤ 500 →
        (demoHandler.ScaleUp c ns name (Body.json ⟨n, reason⟩) now1).1.1 = 200 ∧
        (demoHandler.ScaleUp
          (demoHandler.ScaleUp c ns name (Body.json ⟨n, reason⟩) now1).2
          ns name (Body.json ⟨n, reason⟩) now2).1.1 = 200 ∧
        previousReplicas (demoHandler.ScaleUp
          (demoHandler.ScaleUp c ns name (Body.json ⟨n, reason⟩) now1).2
          ns name (Body.json ⟨n, reason⟩) now2).1 = some n ∧
        (demoHandler.ScaleUp c ns name (Body.json ⟨n, reason⟩) now1).2.desired ns name =
          some n ∧
        (demoHandler.ScaleUp
          (demoHandler.ScaleUp c ns name (Body.json ⟨n, reason⟩) now1).2
          ns name (Body.json ⟨n, reason⟩) now2).2.desired ns name = some n) := by
  refine ⟨?_, ?_, ?_⟩
  · obtain ⟨a1, a2, a3⟩ := scaleDeployment_quiet c ns name n d hquiet hex
    obtain ⟨b1, _, b3⟩ := scaleDeployment_quiet (ScaleDeployment c ns name n).2 ns name n _ a2 a3
    exact ⟨a1, b1, by simp [Clientset.desired, a3], by simp [Clientset.desired, b3]⟩
  · intro _
    obtain ⟨a1, _, _, a4, a5⟩ :=
      scaleToZero_quiet c ns name ⟨reason, sched⟩ now1 d hquiet hex
    obtain ⟨b1, _, b3, _, b5⟩ :=
      scaleToZero_quiet _ ns name ⟨reason, sched⟩ now2 _ a4 a5
    exact ⟨a1, b1, by simpa using b3, by simp [Clientset.desired, a5],
      by simp [Clientset.desired, b5]⟩
  · intro h1 hmax hr hl
    obtain ⟨a1, _, _, a4, a5⟩ :=
      scaleUp_quiet c ns name ⟨n, reason⟩ now1 d hquiet hex h1 hmax hr hl
    obtain ⟨b1, _, b3, _, b5⟩ :=
      scaleUp_quiet _ ns name ⟨n, reason⟩ now2 _ a4 a5 h1 hmax hr hl
    exact ⟨a1, b1, by simpa using b3, by simp [Clientset.desired, a5],
      by simp [Clientset.desired, b5]⟩

/-- Witness for C5: scaling `demoCluster` up to 2 twice (the second call
reports previous 2) and down to 0 twice (the second call reports previous 0,
the setting of `TestScaleToZero_AlreadyScaledToZero`). -/
theorem scale_idempotent_witness :
    previousReplicas (demoHandler.ScaleUp
        (demoHandler.ScaleUp demoCluster "test-ns" "test-app" (Body.json ⟨2, "morning"⟩) 7).2
        "test-ns" "test-app" (Body.json ⟨2, "morning"⟩) 8).1 = some 2 ∧
      previousReplicas (demoHandler.ScaleToZero
        (demoHandler.ScaleToZero demoCluster "test-ns" "test-app"
          (Body.json ⟨"morning", none⟩) 7).2
        "test-ns" "test-app" (Body.json ⟨"morning", none⟩) 8).1 = some 0 :=
  ⟨((scale_idempotent demoCluster "test-ns" "test-app" demoDeployment 2 "morning" none 7 8
      rfl rfl).2.2 (by decide) (by decide) (by decide) (by decide)).2.2.1,
    ((scale_idempotent demoCluster "test-ns" "test-app" demoDeployment 0 "morning" none 7 8
      rfl rfl).2.1 rfl).2.2.1⟩

end Idempotency

/-! ## Request validation in the handlers -/

section Validation

open k8s handlers

/-- A scale-up payload with fewer than one replica fails the `binding` tags. -/
theorem bindingErrors_low (req : models.ScaleUpRequest) (hlow : req.Replicas < 1) :
    bindingErrors req ≠ [] := by
  unfold bindingErrors
  by_cases h0 : req.Replicas = 0
  · simp [h0]
  · simp [h0, hlow]

/-- A body that does not bind is answered 400 by `ScaleUp`, with the binding
error's text, without any use of the client. -/
theorem scaleUp_unbound {σ : Type} (h : DeploymentHandler σ) (s : σ) (ns name : String)
    (body : Body models.ScaleUpRequest) (now : Nat) (err : GoError)
    (hb : ShouldBindScaleUpRequest body = Except.error err) :
    h.ScaleUp s ns name body now =
      ((400,
          { Status := "error"
            Message := "Invalid request body"
            Deployment := none
            Error := err.Error
            Timestamp := 0 }), s) := by
  simp [DeploymentHandler.ScaleUp, hb, models.StatusError]

/-- A payload that fails the `binding` tags does not bind: it is refused by
the decoder or by the tags. -/
theorem bind_fails (req : models.ScaleUpRequest) (hbad : bindingErrors req ≠ []) :
    ∃ err, ShouldBindScaleUpRequest (Body.json req) = Except.error err := by
  simp only [ShouldBindScaleUpRequest]
  split
  · exact ⟨_, rfl⟩
  · cases hb : bindingErrors req with
    | nil => exact absurd hb hbad
    | cons e es => exact ⟨_, rfl⟩

/-- A payload whose replicas number is outside the `int32` range does not
bind: the decoder refuses it. -/
theorem bind_overflow (req : models.ScaleUpRequest)
    (hout : req.Replicas < -2147483648 ∨ 2147483647 < req.Replicas) :
    ShouldBindScaleUpRequest (Body.json req) =
      Except.error (unmarshalTypeError req.Replicas) := by
  simp only [ShouldBindScaleUpRequest, hout, if_true]

/-- C11: validation precedes I/O.  For every `ScaleUp` request whose replicas
value is below 1 (zero or negative), the handler responds 400 with status
"error" and message "Invalid request body", carries no deployment record, and
calls neither `GetDeploymentStatus` nor `ScaleDeployment`: the client state
and the list of recorded calls are returned as they were. -/
theorem scaleUp_validation_precedes_io {σ : Type} (k : ClientInterface σ) (s : σ)
    (log : List Call) (ns name : String) (req : models.ScaleUpRequest) (now : Nat)
    (hlow : req.Replicas < 1) :
    ((NewDeploymentHandler (recorded k)).ScaleUp (s, log) ns name (Body.json req) now).1.1 =
        400 ∧
      ((NewDeploymentHandler (recorded k)).ScaleUp (s, log) ns name (Body.json req)
        now).1.2.Status = "error" ∧
      ((NewDeploymentHandler (recorded k)).ScaleUp (s, log) ns name (Body.json req)
        now).1.2.Message = "Invalid request body" ∧
      ((NewDeploymentHandler (recorded k)).ScaleUp (s, log) ns name (Body.json req)
        now).1.2.Deployment = none ∧
      ((NewDeploymentHandler (recorded k)).ScaleUp (s, log) ns name (Body.json req) now).2 =
        (s, log) := by
  obtain ⟨err, hb⟩ := bind_fails req (bindingErrors_low req hlow)
  rw [scaleUp_unbound _ _ ns name _ now err hb]
  exact ⟨rfl, rfl, rfl, rfl, rfl⟩

/-- Witness for C11, the two cases of `TestScaleUp_InvalidReplicaCount`: zero
and minus one replicas are answered 400 and the cluster receives no call. -/
theorem scaleUp_validation_precedes_io_witness :
    ((NewDeploymentHandler (recorded Client)).ScaleUp (demoCluster, []) "test-ns" "test-app"
        (Body.json ⟨0, "Test"⟩) 7).2 = (demoCluster, []) ∧
      ((NewDeploymentHandler (recorded Client)).ScaleUp (demoCluster, []) "test-ns" "test-app"
        (Body.json ⟨-1, "Test"⟩) 7).1.1 = 400 :=
  ⟨(scaleUp_validation_precedes_io Client demoCluster [] "test-ns" "test-app" ⟨0, "Test"⟩ 7
      (by decide)).2.2.2.2,
    (scaleUp_validation_precedes_io Client demoCluster [] "test-ns" "test-app" ⟨-1, "Test"⟩ 7
      (by decide)).1⟩

/-- A scale-up payload whose reason is empty or longer than 500 characters
fails the `binding` tags. -/
theorem bindingErrors_reason (req : models.ScaleUpRequest)
    (hbad : req.Reason = "" ∨ 500 < req.Reason.length) : bindingErrors req ≠ [] := by
  unfold bindingErrors
  rcases hbad with h | h
  · simp [h]
  · by_cases he : req.Reason = ""
    · simp [he]
    · have h1 : ¬ req.Reason.length < 1 := by omega
      simp [he, h1, h]

/-- A payload that fails the `binding` tags does not bind. -/
theorem not_bound (req r : models.ScaleUpRequest) (hbad : bindingErrors req ≠ []) :
    ShouldBindScaleUpRequest (Body.json req) ≠ Except.ok r := by
  obtain ⟨err, hb⟩ := bind_fails req hbad
  rw [hb]
  simp

/-- C12, counterexample: the request `{"replicas":2147483648,"reason":"Test"}`
has at least one replica and a reason of four characters, yet it does not
pass: the number does not fit the `int32` field, the binder returns a decoding
error and `ScaleUp` answers 400 without any client call. -/
theorem oversized_replicas_rejected :
    (1 : Int) ≤ (⟨2147483648, "Test"⟩ : models.ScaleUpRequest).Replicas ∧
      (⟨2147483648, "Test"⟩ : models.ScaleUpRequest).Reason ≠ "" ∧
      (⟨2147483648, "Test"⟩ : models.ScaleUpRequest).Reason.length ≤ 500 ∧
      ShouldBindScaleUpRequest (Body.json ⟨2147483648, "Test"⟩) =
        Except.error (GoError.plain
          ("json: cannot unmarshal number 2147483648 into Go struct field " ++
            "ScaleUpRequest.replicas of type int32")) ∧
      (∀ r, ShouldBindScaleUpRequest (Body.json ⟨2147483648, "Test"⟩) ≠ Except.ok r) ∧
      ((NewDeploymentHandler (recorded Client)).ScaleUp (demoCluster, []) "test-ns" "test-app"
        (Body.json ⟨2147483648, "Test"⟩) 7).1.1 = 400 ∧
      ((NewDeploymentHandler (recorded Client)).ScaleUp (demoCluster, []) "test-ns" "test-app"
        (Body.json ⟨2147483648, "Test"⟩) 7).2 = (demoCluster, []) := by
  have hb : ShouldBindScaleUpRequest (Body.json ⟨2147483648, "Test"⟩) =
      Except.error (GoError.plain
        ("json: cannot unmarshal number 2147483648 into Go struct field " ++
          "ScaleUpRequest.replicas of type int32")) := by
    rfl
  refine ⟨by decide, by decide, by decide, hb, ?_, ?_, ?_⟩
  · intro r hr
    rw [hb] at hr
    simp at hr
  · rw [scaleUp_unbound _ _ "test-ns" "test-app" _ 7 _ hb]
  · rw [scaleUp_unbound _ _ "test-ns" "test-app" _ 7 _ hb]

/-- C12, amended: for every `ScaleUp` request whose replicas value lies
between 1 and 2147483647, so that it fits the `int32` field, the request binds
(passes validation) if and only if its reason is non-empty and at most 500
characters long, and a request that passes is never answered 400; a request
with an empty reason or a reason longer than 500 characters is answered 400
with status "error" before any client call (client state and recorded calls
untouched), whatever its replicas value; and a request whose replicas value
does not fit `int32` is answered 400 before any client call, whatever its
reason. -/
theorem scaleUp_reason_validation {σ : Type} (k : ClientInterface σ) (s : σ)
    (log : List Call) (ns name : String) (req : models.ScaleUpRequest) (now : Nat) :
    (1 ≤ req.Replicas → req.Replicas ≤ 2147483647 →
        (((∃ r, ShouldBindScaleUpRequest (Body.json req) = Except.ok r) ↔
            (req.Reason ≠ "" ∧ req.Reason.length ≤ 500)) ∧
          ((req.Reason ≠ "" ∧ req.Reason.length ≤ 500) →
            ShouldBindScaleUpRequest (Body.json req) = Except.ok req ∧
            ((NewDeploymentHandler (recorded k)).ScaleUp (s, log) ns name (Body.json req)
              now).1.1 ≠ 400))) ∧
      ((req.Reason = "" ∨ 500 < req.Reason.length) →
        ((NewDeploymentHandler (recorded k)).ScaleUp (s, log) ns name (Body.json req)
            now).1.1 = 400 ∧
          ((NewDeploymentHandler (recorded k)).ScaleUp (s, log) ns name (Body.json req)
            now).1.2.Status = "error" ∧
          ((NewDeploymentHandler (recorded k)).ScaleUp (s, log) ns name (Body.json req)
            now).2 = (s, log)) ∧
      ((req.Replicas < -2147483648 ∨ 2147483647 < req.Replicas) →
        (∀ r, ShouldBindScaleUpRequest (Body.json req) ≠ Except.ok r) ∧
          ((NewDeploymentHandler (recorded k)).ScaleUp (s, log) ns name (Body.json req)
            now).1.1 = 400 ∧
          ((NewDeploymentHandler (recorded k)).ScaleUp (s, log) ns name (Body.json req)
            now).1.2.Status = "error" ∧
          ((NewDeploymentHandler (recorded k)).ScaleUp (s, log) ns name (Body.json req)
            now).2 = (s, log)) := by
  refine ⟨?_, ?_, ?_⟩
  · intro hn hmax
    refine ⟨⟨?_, ?_⟩, ?_⟩
    · rintro ⟨r, hr⟩
      by_contra hbad
      have hbad2 : req.Reason = "" ∨ 500 < req.Reason.length := by
        by_cases he : req.Reason = ""
        · exact Or.inl he
        · right
          by_contra hle
          exact hbad ⟨he, by omega⟩
      exact not_bound req r (bindingErrors_reason req hbad2) hr
    · rintro ⟨hr, hl⟩
      exact ⟨req, bind_valid req hn hmax hr hl⟩
    · rintro ⟨hr, hl⟩
      have hb := bind_valid req hn hmax hr hl
      refine ⟨hb, ?_⟩
      simp only [DeploymentHandler.ScaleUp, hb]
      split
      · simp
      · split <;> simp
  · intro hbad
    obtain ⟨err, hb⟩ := bind_fails req (bindingErrors_reason req hbad)
    rw [scaleUp_unbound _ _ ns name _ now err hb]
    exact ⟨rfl, rfl, rfl⟩
  · intro hout
    have hb := bind_overflow req hout
    refine ⟨?_, ?_⟩
    · intro r hr
      rw [hb] at hr
      simp at hr
    · rw [scaleUp_unbound _ _ ns name _ now _ hb]
      exact ⟨rfl, rfl, rfl⟩

/-- Witness for C12, amended: three replicas with the reason "Test" bind;
three replicas with an empty reason (the last case of
`TestScaleUpRequest_Validation`) are answered 400 and no call reaches the
cluster. -/
theorem scaleUp_reason_validation_witness :
    ShouldBindScaleUpRequest (Body.json ⟨3, "Test"⟩) = Except.ok ⟨3, "Test"⟩ ∧
      ((NewDeploymentHandler (recorded Client)).ScaleUp (demoCluster, []) "test-ns" "test-app"
        (Body.json ⟨3, ""⟩) 7).1.1 = 400 ∧
      ((NewDeploymentHandler (recorded Client)).ScaleUp (demoCluster, []) "test-ns" "test-app"
        (Body.json ⟨3, ""⟩) 7).2 = (demoCluster, []) :=
  ⟨(((scaleUp_reason_validation Client demoCluster [] "test-ns" "test-app" ⟨3, "Test"⟩ 7).1
      (by decide) (by decide)).2 ⟨by decide, by decide⟩).1,
    ((scaleUp_reason_validation Client demoCluster [] "test-ns" "test-app" ⟨3, ""⟩ 7).2.1
      (Or.inl rfl)).1,
    ((scaleUp_reason_validation Client demoCluster [] "test-ns" "test-app" ⟨3, ""⟩ 7).2.1
      (Or.inl rfl)).2.2⟩

end Validation

/-! ## The responses of the deployment handlers -/

section Responses

open k8s handlers

/-- C13, the code at the failing input: a `ScaleToZero` request whose reason
is empty is not rejected.  On `demoCluster` the handler reads the deployment,
calls `ScaleDeployment` with target 0, answers 200 "success", and the stored
desired count becomes 0. -/
theorem scaleToZero_accepts_empty_reason :
    ((NewDeploymentHandler (recorded Client)).ScaleToZero (demoCluster, []) "test-ns"
        "test-app" (Body.json ⟨"", none⟩) 7).1.1 = 200 ∧
      ((NewDeploymentHandler (recorded Client)).ScaleToZero (demoCluster, []) "test-ns"
        "test-app" (Body.json ⟨"", none⟩) 7).1.2.Status = "success" ∧
      ((NewDeploymentHandler (recorded Client)).ScaleToZero (demoCluster, []) "test-ns"
        "test-app" (Body.json ⟨"", none⟩) 7).2.2 =
        [Call.GetDeploymentStatus "test-ns" "test-app",
          Call.ScaleDeployment "test-ns" "test-app" 0] ∧
      ((NewDeploymentHandler (recorded Client)).ScaleToZero (demoCluster, []) "test-ns"
        "test-app" (Body.json ⟨"", none⟩) 7).2.1.desired "test-ns" "test-app" = some 0 ∧
      demoCluster.desired "test-ns" "test-app" = some 3 := by
  refine ⟨rfl, rfl, rfl, rfl, rfl⟩

/-- What `ScaleToZero` answers when the status read fails. -/
theorem scaleToZero_read_error {σ : Type} (k : ClientInterface σ) (s s1 : σ) (log : List Call)
    (ns name : String) (zreq : models.ScaleRequest) (now : Nat) (e : GoError)
    (hread : k.GetDeploymentStatus s ns name = (Except.error e, s1)) :
    (NewDeploymentHandler (recorded k)).ScaleToZero (s, log) ns name (Body.json zreq) now =
      ((404,
          { Status := "error"
            Message := "Deployment " ++ ns ++ "/" ++ name ++ " not found"
            Deployment := none
            Error := e.Error
            Timestamp := 0 }), (s1, log ++ [Call.GetDeploymentStatus ns name])) := by
  simp [DeploymentHandler.ScaleToZero, NewDeploymentHandler, recorded, ShouldBindScaleRequest,
    hread, models.StatusError]

/-- What `ScaleUp` answers when the status read fails. -/
theorem scaleUp_read_error {σ : Type} (k : ClientInterface σ) (s s1 : σ) (log : List Call)
    (ns name : String) (body : Body models.ScaleUpRequest) (req : models.ScaleUpRequest)
    (now : Nat) (e : GoError)
    (hbind : ShouldBindScaleUpRequest body = Except.ok req)
    (hread : k.GetDeploymentStatus s ns name = (Except.error e, s1)) :
    (NewDeploymentHandler (recorded k)).ScaleUp (s, log) ns name body now =
      ((404,
          { Status := "error"
            Message := "Deployment " ++ ns ++ "/" ++ name ++ " not found"
            Deployment := none
            Error := e.Error
            Timestamp := 0 }), (s1, log ++ [Call.GetDeploymentStatus ns name])) := by
  simp [DeploymentHandler.ScaleUp, NewDeploymentHandler, recorded, hbind, hread,
    models.StatusError]

/-- What `GetStatus` answers when the status read fails. -/
theorem getStatus_read_error {σ : Type} (k : ClientInterface σ) (s s1 : σ) (log : List Call)
    (ns name : String) (now : Nat) (e : GoError)
    (hread : k.GetDeploymentStatus s ns name = (Except.error e, s1)) :
    (NewDeploymentHandler (recorded k)).GetStatus (s, log) ns name now =
      ((404,
          { Status := "error"
            Message := "Deployment " ++ ns ++ "/" ++ name ++ " not found"
            Deployment := none
            Error := e.Error
            Timestamp := now }), (s1, log ++ [Call.GetDeploymentStatus ns name])) := by
  simp [DeploymentHandler.GetStatus, NewDeploymentHandler, recorded, hread, models.StatusError]

/-- C14: when the status read reports that the deployment does not exist, each
of `ScaleToZero`, `ScaleUp` (for requests that bind) and `GetStatus` responds
404 with status "error" and message "Deployment <namespace>/<name> not found";
the only client call made is that read, so `ScaleToZero` and `ScaleUp` do not
call `ScaleDeployment`. -/
theorem notFound_read_is_404 {σ : Type} (k : ClientInterface σ) (s s1 : σ) (log : List Call)
    (ns name : String) (now : Nat) (e : GoError)
    (hread : k.GetDeploymentStatus s ns name = (Except.error e, s1))
    (_hnf : IsNotFound e = true) :
    (∀ zreq : models.ScaleRequest,
        ((NewDeploymentHandler (recorded k)).ScaleToZero (s, log) ns name (Body.json zreq)
            now).1.1 = 404 ∧
          ((NewDeploymentHandler (recorded k)).ScaleToZero (s, log) ns name (Body.json zreq)
            now).1.2.Status = "error" ∧
          ((NewDeploymentHandler (recorded k)).ScaleToZero (s, log) ns name (Body.json zreq)
            now).1.2.Message = "Deployment " ++ ns ++ "/" ++ name ++ " not found" ∧
          ((NewDeploymentHandler (recorded k)).ScaleToZero (s, log) ns name (Body.json zreq)
            now).2.2 = log ++ [Call.GetDeploymentStatus ns name]) ∧
      (∀ (body : Body models.ScaleUpRequest) (req : models.ScaleUpRequest),
        ShouldBindScaleUpRequest body = Except.ok req →
        ((NewDeploymentHandler (recorded k)).ScaleUp (s, log) ns name body now).1.1 = 404 ∧
          ((NewDeploymentHandler (recorded k)).ScaleUp (s, log) ns name body now).1.2.Status =
            "error" ∧
          ((NewDeploymentHandler (recorded k)).ScaleUp (s, log) ns name body now).1.2.Message =
            "Deployment " ++ ns ++ "/" ++ name ++ " not found" ∧
          ((NewDeploymentHandler (recorded k)).ScaleUp (s, log) ns name body now).2.2 =
            log ++ [Call.GetDeploymentStatus ns name]) ∧
      (((NewDeploymentHandler (recorded k)).GetStatus (s, log) ns name now).1.1 = 404 ∧
        ((NewDeploymentHandler (recorded k)).GetStatus (s, log) ns name now).1.2.Status =
          "error" ∧
        ((NewDeploymentHandler (recorded k)).GetStatus (s, log) ns name now).1.2.Message =
          "Deployment " ++ ns ++ "/" ++ name ++ " not found" ∧
        ((NewDeploymentHandler (recorded k)).GetStatus (s, log) ns name now).2.2 =
          log ++ [Call.GetDeploymentStatus ns name]) := by
  refine ⟨?_, ?_, ?_⟩
  · intro zreq
    rw [scaleToZero_read_error k s s1 log ns name zreq now e hread]
    exact ⟨rfl, rfl, rfl, rfl⟩
  · intro body req hbind
    rw [scaleUp_read_error k s s1 log ns name body req now e hbind hread]
    exact ⟨rfl, rfl, rfl, rfl⟩
  · rw [getStatus_read_error k s s1 log ns name now e hread]
    exact ⟨rfl, rfl, rfl, rfl⟩

/-- The status read of the production client on a cluster with no deployment. -/
theorem empty_read :
    Client.GetDeploymentStatus emptyCluster "test-ns" "nonexistent" =
      (Except.error (GoError.wrapf "failed to get deployment test-ns/nonexistent: "
        (NewNotFound "nonexistent")),
        { emptyCluster with actions := [Action.get "test-ns" "nonexistent"] }) := by
  rfl

/-- Witness for C14, the setting of `TestScaleToZero_DeploymentNotFound` and
`TestGetStatus_NotFound`, through the production client. -/
theorem notFound_read_is_404_witness :
    ((NewDeploymentHandler (recorded Client)).ScaleToZero (emptyCluster, []) "test-ns"
        "nonexistent" (Body.json ⟨"Test", none⟩) 7).1.1 = 404 ∧
      ((NewDeploymentHandler (recorded Client)).GetStatus (emptyCluster, []) "test-ns"
        "nonexistent" 7).1.2.Message = "Deployment test-ns/nonexistent not found" ∧
      ((NewDeploymentHandler (recorded Client)).ScaleUp (emptyCluster, []) "test-ns"
        "nonexistent" (Body.json ⟨2, "Test"⟩) 7).2.2 =
        [Call.GetDeploymentStatus "test-ns" "nonexistent"] :=
  ⟨((notFound_read_is_404 Client emptyCluster _ [] "test-ns" "nonexistent" 7 _
      empty_read rfl).1 ⟨"Test", none⟩).1,
    (notFound_read_is_404 Client emptyCluster _ [] "test-ns" "nonexistent" 7 _
      empty_read rfl).2.2.2.2.1,
    ((notFound_read_is_404 Client emptyCluster _ [] "test-ns" "nonexistent" 7 _
      empty_read rfl).2.1 (Body.json ⟨2, "Test"⟩) ⟨2, "Test"⟩ rfl).2.2.2⟩

/-- The status read of the production client on `forbiddenCluster`. -/
theorem forbidden_read :
    Client.GetDeploymentStatus forbiddenCluster "test-ns" "test-app" =
      (Except.ok
        { Name := "test-app", Namespace := "test-ns", DesiredReplicas := 3,
          CurrentReplicas := 3, AvailableReplicas := 2, UpdatedReplicas := 2,
          CreationTime := 100 },
        { forbiddenCluster with
          script := [EnvStep.fail
            (GoError.status StatusReason.Forbidden 403 "deployments.apps is forbidden")]
          actions := [Action.get "test-ns" "test-app"] }) := by
  rfl

/-- C16: for every `ScaleToZero` or `ScaleUp` request that binds and whose
status read succeeds, if `ScaleDeployment` returns an error (any error) the
handler responds 500 with status "error", message "Failed to scale
deployment", the error's text in the error field and no deployment record. -/
theorem scale_error_is_500 {σ : Type} (k : ClientInterface σ) (s s1 : σ)
    (log : List Call) (ns name : String) (now : Nat) (st : DeploymentStatus)
    (hread : k.GetDeploymentStatus s ns name = (Except.ok st, s1)) :
    (∀ (zreq : models.ScaleRequest) (e : GoError) (s2 : σ),
        k.ScaleDeployment s1 ns name 0 = (some e, s2) →
        ((NewDeploymentHandler (recorded k)).ScaleToZero (s, log) ns name (Body.json zreq)
          now).1 =
          (500,
            { Status := "error"
              Message := "Failed to scale deployment"
              Deployment := none
              Error := e.Error
              Timestamp := 0 })) ∧
      (∀ (body : Body models.ScaleUpRequest) (req : models.ScaleUpRequest) (e : GoError)
          (s2 : σ),
        ShouldBindScaleUpRequest body = Except.ok req →
        k.ScaleDeployment s1 ns name req.Replicas = (some e, s2) →
        ((NewDeploymentHandler (recorded k)).ScaleUp (s, log) ns name body now).1 =
          (500,
            { Status := "error"
              Message := "Failed to scale deployment"
              Deployment := none
              Error := e.Error
              Timestamp := 0 })) := by
  constructor
  · intro zreq e s2 hzero
    simp [DeploymentHandler.ScaleToZero, NewDeploymentHandler, recorded,
      ShouldBindScaleRequest, hread, hzero, models.StatusError]
  · intro body req e s2 hbind hup
    simp [DeploymentHandler.ScaleUp, NewDeploymentHandler, recorded, hbind, hread, hup,
      models.StatusError]

/-- Witness for C16: on `forbiddenCluster` the status read succeeds and the
scale call is refused; both handlers answer 500. -/
theorem scale_error_is_500_witness :
    ((NewDeploymentHandler (recorded Client)).ScaleToZero (forbiddenCluster, []) "test-ns"
        "test-app" (Body.json ⟨"Test", none⟩) 7).1.1 = 500 ∧
      ((NewDeploymentHandler (recorded Client)).ScaleUp (forbiddenCluster, []) "test-ns"
        "test-app" (Body.json ⟨2, "Test"⟩) 7).1.2.Message = "Failed to scale deployment" :=
  ⟨congrArg Prod.fst
      ((scale_error_is_500 Client forbiddenCluster _ [] "test-ns" "test-app" 7 _
        forbidden_read).1 ⟨"Test", none⟩ _ _ rfl),
    congrArg (fun r => r.2.Message)
      ((scale_error_is_500 Client forbiddenCluster _ [] "test-ns" "test-app" 7 _
        forbidden_read).2 (Body.json ⟨2, "Test"⟩) ⟨2, "Test"⟩ _ _ rfl rfl)⟩

/-- C18: for every `ScaleToZero` request that binds, on a workload whose
status read and scale call both succeed, the handler calls `ScaleDeployment`
with target exactly 0 (after one status read) and responds 200 with status
"success", message "Deployment scaled to zero", `previous_replicas` equal to
the desired count read before the write, and `current_replicas` =
`target_replicas` = 0 whatever current count was read. -/
theorem scaleToZero_success {σ : Type} (k : ClientInterface σ) (s s1 s2 : σ)
    (log : List Call) (ns name : String) (zreq : models.ScaleRequest) (now : Nat)
    (st : DeploymentStatus)
    (hread : k.GetDeploymentStatus s ns name = (Except.ok st, s1))
    (hscale : k.ScaleDeployment s1 ns name 0 = (none, s2)) :
    (NewDeploymentHandler (recorded k)).ScaleToZero (s, log) ns name (Body.json zreq) now =
      ((200,
          { Status := "success"
            Message := "Deployment scaled to zero"
            Timestamp := now
            Error := ""
            Deployment := some
              { Name := name
                Namespace := ns
                Replicas := 0
                PreviousReplicas := st.DesiredReplicas
                CurrentReplicas := 0
                TargetReplicas := 0
                TargetStatus := "scaled-to-zero"
                ScaledAt := 0
                ScaledBy := ""
                Reason := ""
                ScalingReason := zreq.Reason
                ScheduledScaleUp := zreq.ScheduledScaleUp } }),
        (s2, log ++ [Call.GetDeploymentStatus ns name, Call.ScaleDeployment ns name 0])) := by
  simp [DeploymentHandler.ScaleToZero, NewDeploymentHandler, recorded, ShouldBindScaleRequest,
    hread, hscale, models.StatusSuccess]

/-- Witness for C18, the scenario of section 8: desired 3, current 3; the
handler reports previous 3 and current 0. -/
theorem scaleToZero_success_witness :
    ((NewDeploymentHandler (recorded Client)).ScaleToZero (demoCluster, []) "test-ns"
        "test-app" (Body.json ⟨"Cost", none⟩) 7).1.2.Deployment.map
        (fun i => (i.PreviousReplicas, i.CurrentReplicas, i.TargetReplicas)) =
      some (3, 0, 0) :=
  congrArg (fun r => r.1.2.Deployment.map
      fun i => (i.PreviousReplicas, i.CurrentReplicas, i.TargetReplicas))
    (scaleToZero_success Client demoCluster _ _ [] "test-ns" "test-app" ⟨"Cost", none⟩ 7 _
      demo_read rfl)

/-- C19: for every valid `ScaleUp` request with `n` replicas, `n` at least 1
and within the `int32` range of the field, and a valid reason, on a workload
whose status read and scale call both succeed, the
handler calls `ScaleDeployment` with target exactly `n` (after one status
read) and responds 200 with status "success", message "Deployment scaled to n
replicas", `target_replicas = n`, `previous_replicas` equal to the desired
count and `current_replicas` equal to the current count read before the
write. -/
theorem scaleUp_success {σ : Type} (k : ClientInterface σ) (s s1 s2 : σ)
    (log : List Call) (ns name : String) (req : models.ScaleUpRequest) (now : Nat)
    (st : DeploymentStatus)
    (hn : 1 ≤ req.Replicas) (hmax : req.Replicas ≤ 2147483647)
    (hr : req.Reason ≠ "") (hl : req.Reason.length ≤ 500)
    (hread : k.GetDeploymentStatus s ns name = (Except.ok st, s1))
    (hscale : k.ScaleDeployment s1 ns name req.Replicas = (none, s2)) :
    (NewDeploymentHandler (recorded k)).ScaleUp (s, log) ns name (Body.json req) now =
      ((200,
          { Status := "success"
            Message := "Deployment scaled to " ++ toString req.Replicas ++ " replicas"
            Timestamp := now
            Error := ""
            Deployment := some
              { Name := name
                Namespace := ns
                Replicas := 0
                PreviousReplicas := st.DesiredReplicas
                CurrentReplicas := st.CurrentReplicas
                TargetReplicas := req.Replicas
                TargetStatus := "scaling-up"
                ScaledAt := 0
                ScaledBy := ""
                Reason := ""
                ScalingReason := req.Reason
                ScheduledScaleUp := none } }),
        (s2,
          log ++ [Call.GetDeploymentStatus ns name, Call.ScaleDeployment ns name req.Replicas])) := by
  have hb := bind_valid req hn hmax hr hl
  simp [DeploymentHandler.ScaleUp, NewDeploymentHandler, recorded, hb, hread, hscale,
    models.StatusSuccess]

/-- The status read of the production client on `idleCluster`. -/
theorem idle_read :
    Client.GetDeploymentStatus idleCluster "test-ns" "test-app" =
      (Except.ok
        { Name := "test-app", Namespace := "test-ns", DesiredReplicas := 0,
          CurrentReplicas := 0, AvailableReplicas := 0, UpdatedReplicas := 0,
          CreationTime := 100 },
        { idleCluster with actions := [Action.get "test-ns" "test-app"] }) := by
  rfl

/-- Witness for C19, the scenario of section 8: desired 0, `ScaleUp` to 2;
the handler reports previous 0, current 0, target 2. -/
theorem scaleUp_success_witness :
    ((NewDeploymentHandler (recorded Client)).ScaleUp (idleCluster, []) "test-ns" "test-app"
        (Body.json ⟨2, "Resume operations"⟩) 7).1.2.Message =
        "Deployment scaled to 2 replicas" ∧
      ((NewDeploymentHandler (recorded Client)).ScaleUp (idleCluster, []) "test-ns" "test-app"
        (Body.json ⟨2, "Resume operations"⟩) 7).1.2.Deployment.map
        (fun i => (i.PreviousReplicas, i.CurrentReplicas, i.TargetReplicas)) =
        some (0, 0, 2) :=
  ⟨congrArg (fun r => r.1.2.Message)
      (scaleUp_success Client idleCluster _ _ [] "test-ns" "test-app"
        ⟨2, "Resume operations"⟩ 7 _ (by decide) (by decide) (by decide) (by decide)
        idle_read rfl),
    congrArg (fun r => r.1.2.Deployment.map
        fun i => (i.PreviousReplicas, i.CurrentReplicas, i.TargetReplicas))
      (scaleUp_success Client idleCluster _ _ [] "test-ns" "test-app"
        ⟨2, "Resume operations"⟩ 7 _ (by decide) (by decide) (by decide) (by decide)
        idle_read rfl)⟩

/-- The cluster API sees one read and nothing else when the production client
serves `GetDeploymentStatus`. -/
theorem getDeploymentStatus_actions (c : Clientset) (ns name : String) :
    (GetDeploymentStatus c ns name).2 = c.advance.1.record (Action.get ns name) := by
  have h := Clientset.Get_state c ns name
  unfold GetDeploymentStatus
  rcases hg : c.Get ns name with ⟨r, c1⟩
  rw [hg] at h
  cases r <;> simpa using h

/-- C20: every `GetStatus` request makes exactly one `GetDeploymentStatus`
call and no `ScaleDeployment` call, whether the read succeeds or not (through
the production client the cluster API receives one get and no update, and the
handler writes nothing to the store); when the read succeeds the handler
responds 200 "success" with name, namespace, current, desired and available
replicas copied unchanged from the snapshot read. -/
theorem getStatus_single_read {σ : Type} (k : ClientInterface σ) (s : σ) (log : List Call)
    (ns name : String) (now : Nat) :
    ((NewDeploymentHandler (recorded k)).GetStatus (s, log) ns name now).2.2 =
        log ++ [Call.GetDeploymentStatus ns name] ∧
      (∀ (st : DeploymentStatus) (s1 : σ),
        k.GetDeploymentStatus s ns name = (Except.ok st, s1) →
        ((NewDeploymentHandler (recorded k)).GetStatus (s, log) ns name now).1.1 = 200 ∧
          ((NewDeploymentHandler (recorded k)).GetStatus (s, log) ns name now).1.2.Status =
            "success" ∧
          ((NewDeploymentHandler (recorded k)).GetStatus (s, log) ns name
            now).1.2.Deployment.map
            (fun d => (d.Name, d.Namespace, d.CurrentReplicas, d.DesiredReplicas,
              d.AvailableReplicas)) =
            some (st.Name, st.Namespace, st.CurrentReplicas, st.DesiredReplicas,
              st.AvailableReplicas)) ∧
      (∀ c : Clientset,
        (demoHandler.GetStatus c ns name now).2.actions = c.actions ++ [Action.get ns name] ∧
          (demoHandler.GetStatus c ns name now).2.writes = c.writes ∧
          (demoHandler.GetStatus c ns name now).2.tracker = c.advance.1.tracker) := by
  refine ⟨?_, ?_, ?_⟩
  · rcases hg : k.GetDeploymentStatus s ns name with ⟨r, s1⟩
    cases r <;> simp [DeploymentHandler.GetStatus, NewDeploymentHandler, recorded, hg]
  · intro st s1 hread
    simp [DeploymentHandler.GetStatus, NewDeploymentHandler, recorded, hread,
      models.StatusSuccess]
  · intro c
    have hst : (demoHandler.GetStatus c ns name now).2 =
        c.advance.1.record (Action.get ns name) := by
      rw [← getDeploymentStatus_actions c ns name]
      rcases hg : GetDeploymentStatus c ns name with ⟨r, c1⟩
      cases r <;>
        simp [DeploymentHandler.GetStatus, demoHandler, NewDeploymentHandler, Client, hg]
    have hact : (demoHandler.GetStatus c ns name now).2.actions =
        c.actions ++ [Action.get ns name] := by
      rw [hst]
      simp [Clientset.record, Clientset.advance_actions]
    refine ⟨hact, ?_, ?_⟩
    · rw [Clientset.writes_append hact]
      rfl
    · rw [hst]
      rfl

/-- Witness for C20, the setting of `TestGetStatus_Success` on `demoCluster`:
200 and the counters of the snapshot. -/
theorem getStatus_single_read_witness :
    ((NewDeploymentHandler (recorded Client)).GetStatus (demoCluster, []) "test-ns" "test-app"
        7).1.2.Deployment.map
        (fun d => (d.Name, d.Namespace, d.CurrentReplicas, d.DesiredReplicas,
          d.AvailableReplicas)) =
      some ("test-app", "test-ns", 3, 3, 2) :=
  ((getStatus_single_read Client demoCluster [] "test-ns" "test-app" 7).2.1 _ _
    demo_read).2.2

/-- The status read of the production client on `vanishingCluster`. -/
theorem vanishing_read :
    Client.GetDeploymentStatus vanishingCluster "test-ns" "test-app" =
      (Except.ok
        { Name := "test-app", Namespace := "test-ns", DesiredReplicas := 3,
          CurrentReplicas := 3, AvailableReplicas := 2, UpdatedReplicas := 2,
          CreationTime := 100 },
        { vanishingCluster with
          script := [EnvStep.delete "test-ns" "test-app"]
          actions := [Action.get "test-ns" "test-app"] }) := by
  rfl

/-- C15, counterexample: on `vanishingCluster` the handler's status read
succeeds, the deployment is then deleted, and the read inside the scale call
fails with an error `IsNotFound` recognises; `ScaleToZero` and `ScaleUp`
answer 500 "Failed to scale deployment", not 404. -/
theorem notFound_in_scale_is_500 :
    (ScaleDeployment (Client.GetDeploymentStatus vanishingCluster "test-ns" "test-app").2
        "test-ns" "test-app" 0).1.map IsNotFound = some true ∧
      (demoHandler.ScaleToZero vanishingCluster "test-ns" "test-app"
        (Body.json ⟨"Test", none⟩) 7).1.1 = 500 ∧
      (demoHandler.ScaleToZero vanishingCluster "test-ns" "test-app"
        (Body.json ⟨"Test", none⟩) 7).1.2.Message = "Failed to scale deployment" ∧
      (demoHandler.ScaleUp vanishingCluster "test-ns" "test-app"
        (Body.json ⟨2, "Test"⟩) 7).1.1 = 500 ∧
      ¬ ((demoHandler.ScaleToZero vanishingCluster "test-ns" "test-app"
        (Body.json ⟨"Test", none⟩) 7).1.1 = 404) := by
  refine ⟨rfl, rfl, rfl, rfl, ?_⟩
  decide

/-- The production client's two calls on a deployment that is absent when the
read is served. -/
theorem absent_calls (c : Clientset) (ns name : String) (target : Int)
    (hfault : c.advance.2 = none) (habsent : c.advance.1.find ns name = none) :
    GetDeploymentStatus c ns name =
        (Except.error (GoError.wrapf ("failed to get deployment " ++ ns ++ "/" ++ name ++ ": ")
          (NewNotFound name)), c.advance.1.record (Action.get ns name)) ∧
      ScaleDeployment c ns name target =
        (some (GoError.wrapf ("failed to get deployment " ++ ns ++ "/" ++ name ++ ": ")
          (NewNotFound name)), c.advance.1.record (Action.get ns name)) := by
  have hg := Clientset.Get_absent c ns name hfault habsent
  constructor
  · simp only [GetDeploymentStatus, hg]
  · simp only [ScaleDeployment, hg]

/-- C15, amended: for `ScaleToZero` and `ScaleUp` through the production
client, a workload found absent by the handler's status read is reported 404
"Deployment <namespace>/<name> not found"; a workload found absent only by the
read inside the scale call (it was there for the status read) is reported in
the server error class, 500 "Failed to scale deployment", with the NotFound
error's text in the error field. -/
theorem absent_workload_mapping (c c1 : Clientset) (ns name : String)
    (zreq : models.ScaleRequest) (req : models.ScaleUpRequest) (now : Nat)
    (st : DeploymentStatus)
    (hn : 1 ≤ req.Replicas) (hmax : req.Replicas ≤ 2147483647)
    (hr : req.Reason ≠ "") (hl : req.Reason.length ≤ 500) :
    (c.advance.2 = none → c.advance.1.find ns name = none →
        (demoHandler.ScaleToZero c ns name (Body.json zreq) now).1.1 = 404 ∧
          (demoHandler.ScaleToZero c ns name (Body.json zreq) now).1.2.Message =
            "Deployment " ++ ns ++ "/" ++ name ++ " not found" ∧
          (demoHandler.ScaleUp c ns name (Body.json req) now).1.1 = 404 ∧
          (demoHandler.ScaleUp c ns name (Body.json req) now).1.2.Message =
            "Deployment " ++ ns ++ "/" ++ name ++ " not found") ∧
      (GetDeploymentStatus c ns name = (Except.ok st, c1) →
        c1.advance.2 = none → c1.advance.1.find ns name = none →
        (demoHandler.ScaleToZero c ns name (Body.json zreq) now).1 =
            (500,
              { Status := "error"
                Message := "Failed to scale deployment"
                Deployment := none
                Error := "failed to get deployment " ++ ns ++ "/" ++ name ++ ": " ++
                  (NewNotFound name).Error
                Timestamp := 0 }) ∧
          (demoHandler.ScaleUp c ns name (Body.json req) now).1 =
            (500,
              { Status := "error"
                Message := "Failed to scale deployment"
                Deployment := none
                Error := "failed to get deployment " ++ ns ++ "/" ++ name ++ ": " ++
                  (NewNotFound name).Error
                Timestamp := 0 })) := by
  have hb := bind_valid req hn hmax hr hl
  constructor
  · intro hfault habsent
    have hq := (absent_calls c ns name 0 hfault habsent).1
    refine ⟨?_, ?_, ?_, ?_⟩ <;>
      simp [DeploymentHandler.ScaleToZero, DeploymentHandler.ScaleUp, demoHandler,
        NewDeploymentHandler, Client, ShouldBindScaleRequest, hb, hq]
  · intro hread hfault habsent
    have h0 := (absent_calls c1 ns name 0 hfault habsent).2
    have h1 := (absent_calls c1 ns name req.Replicas hfault habsent).2
    constructor
    · simp [DeploymentHandler.ScaleToZero, demoHandler, NewDeploymentHandler, Client,
        ShouldBindScaleRequest, hread, h0, models.StatusError, GoError.Error,
        String.append_assoc]
    · simp [DeploymentHandler.ScaleUp, demoHandler, NewDeploymentHandler, Client, hb, hread,
        h1, models.StatusError, GoError.Error, String.append_assoc]

/-- Witness for C15, amended: absent from the start (`emptyCluster`) gives
404; deleted after the status read (`vanishingCluster`) gives 500. -/
theorem absent_workload_mapping_witness :
    (demoHandler.ScaleToZero emptyCluster "test-ns" "nonexistent"
        (Body.json ⟨"Test", none⟩) 7).1.1 = 404 ∧
      (demoHandler.ScaleToZero vanishingCluster "test-ns" "test-app"
        (Body.json ⟨"Test", none⟩) 7).1.1 = 500 :=
  ⟨((absent_workload_mapping emptyCluster emptyCluster "test-ns" "nonexistent"
      ⟨"Test", none⟩ ⟨2, "Test"⟩ 7
      { Name := "", Namespace := "", DesiredReplicas := 0, CurrentReplicas := 0,
        AvailableReplicas := 0, UpdatedReplicas := 0, CreationTime := 0 }
      (by decide) (by decide) (by decide) (by decide)).1 rfl rfl).1,
    congrArg Prod.fst
      ((absent_workload_mapping vanishingCluster _ "test-ns" "test-app"
        ⟨"Test", none⟩ ⟨2, "Test"⟩ 7 _
        (by decide) (by decide) (by decide) (by decide)).2 vanishing_read rfl rfl).1⟩

/-- The status read of the production client on `unauthorizedCluster`. -/
theorem unauthorized_read :
    Client.GetDeploymentStatus unauthorizedCluster "test-ns" "test-app" =
      (Except.error (GoError.wrapf "failed to get deployment test-ns/test-app: "
        (GoError.status StatusReason.Forbidden 403 "deployments.apps is forbidden")),
        { unauthorizedCluster with
          script := []
          actions := [Action.get "test-ns" "test-app"] }) := by
  rfl

/-- C17, counterexample: on `unauthorizedCluster` the status read is refused
with 403 Forbidden, an error that is not NotFound, and `GetStatus`,
`ScaleToZero` and `ScaleUp` all answer 404 "Deployment test-ns/test-app not
found", which is not in the server error class. -/
theorem upstream_read_failure_not_5xx :
    (match (Client.GetDeploymentStatus unauthorizedCluster "test-ns" "test-app").1 with
      | Except.error e => IsNotFound e = false
      | Except.ok _ => False) ∧
      (demoHandler.GetStatus unauthorizedCluster "test-ns" "test-app" 7).1.1 = 404 ∧
      (demoHandler.GetStatus unauthorizedCluster "test-ns" "test-app" 7).1.2.Message =
        "Deployment test-ns/test-app not found" ∧
      (demoHandler.ScaleToZero unauthorizedCluster "test-ns" "test-app"
        (Body.json ⟨"Test", none⟩) 7).1.1 = 404 ∧
      (demoHandler.ScaleUp unauthorizedCluster "test-ns" "test-app"
        (Body.json ⟨2, "Test"⟩) 7).1.1 = 404 ∧
      ¬ (500 ≤ (demoHandler.GetStatus unauthorizedCluster "test-ns" "test-app" 7).1.1) := by
  refine ⟨rfl, rfl, rfl, rfl, rfl, ?_⟩
  decide

/-- C17, amended: for every `ScaleToZero`, `ScaleUp` (that binds) or
`GetStatus` request, a failure of the status read that is not NotFound
(authorization, network, malformed response) is reported exactly as a missing
workload is: 404 with status "error", message "Deployment <namespace>/<name>
not found" and the failure's text in the error field, after that one read and
no `ScaleDeployment` call; it is not reported in the server error class. -/
theorem read_failure_is_404 {σ : Type} (k : ClientInterface σ) (s s1 : σ) (log : List Call)
    (ns name : String) (now : Nat) (e : GoError)
    (hread : k.GetDeploymentStatus s ns name = (Except.error e, s1))
    (_hother : IsNotFound e = false) :
    (∀ zreq : models.ScaleRequest,
        (NewDeploymentHandler (recorded k)).ScaleToZero (s, log) ns name (Body.json zreq) now =
          ((404,
              { Status := "error"
                Message := "Deployment " ++ ns ++ "/" ++ name ++ " not found"
                Deployment := none
                Error := e.Error
                Timestamp := 0 }), (s1, log ++ [Call.GetDeploymentStatus ns name]))) ∧
      (∀ (body : Body models.ScaleUpRequest) (req : models.ScaleUpRequest),
        ShouldBindScaleUpRequest body = Except.ok req →
        (NewDeploymentHandler (recorded k)).ScaleUp (s, log) ns name body now =
          ((404,
              { Status := "error"
                Message := "Deployment " ++ ns ++ "/" ++ name ++ " not found"
                Deployment := none
                Error := e.Error
                Timestamp := 0 }), (s1, log ++ [Call.GetDeploymentStatus ns name]))) ∧
      (NewDeploymentHandler (recorded k)).GetStatus (s, log) ns name now =
        ((404,
            { Status := "error"
              Message := "Deployment " ++ ns ++ "/" ++ name ++ " not found"
              Deployment := none
              Error := e.Error
              Timestamp := now }), (s1, log ++ [Call.GetDeploymentStatus ns name])) ∧
      ((NewDeploymentHandler (recorded k)).GetStatus (s, log) ns name now).1.1 < 500 :=
  ⟨fun zreq => scaleToZero_read_error k s s1 log ns name zreq now e hread,
    fun body req hbind => scaleUp_read_error k s s1 log ns name body req now e hbind hread,
    getStatus_read_error k s s1 log ns name now e hread,
    by rw [getStatus_read_error k s s1 log ns name now e hread]; exact (by decide : 404 < 500)⟩

/-- Witness for C17, amended, on `unauthorizedCluster`: the error field
carries the Forbidden failure and the code is 404. -/
theorem read_failure_is_404_witness :
    ((NewDeploymentHandler (recorded Client)).GetStatus (unauthorizedCluster, []) "test-ns"
        "test-app" 7).1 =
      (404,
        { Status := "error"
          Message := "Deployment test-ns/test-app not found"
          Deployment := none
          Error := "failed to get deployment test-ns/test-app: deployments.apps is forbidden"
          Timestamp := 7 }) :=
  congrArg Prod.fst
    (read_failure_is_404 Client unauthorizedCluster _ [] "test-ns" "test-app" 7 _
      unauthorized_read rfl).2.2.1

end Responses

/-! ## Snapshots and the submitted update -/

section Snapshots

open k8s handlers

namespace Clientset

theorem Get_present (c : Clientset) (ns name : String) (d : Deployment)
    (hfault : c.advance.2 = none) (hd : c.advance.1.find ns name = some d) :
    c.Get ns name = (Except.ok d, c.advance.1.record (Action.get ns name)) := by
  unfold Get
  simp [hfault, find_record, hd]

end Clientset

/-- C26: for every deployment that exists when the read is served,
`GetDeploymentStatus` returns a snapshot with the name and namespace of the
deployment (the ones asked for), `DesiredReplicas` equal to `Spec.Replicas`
when it is set and 0 when it is absent, `CurrentReplicas = Status.Replicas`,
`AvailableReplicas = Status.AvailableReplicas`, `UpdatedReplicas =
Status.UpdatedReplicas` and `CreationTime` = the creation timestamp; hence a
deployment with no explicit replica count is reported "inactive" by
`GetStatus`. -/
theorem getDeploymentStatus_snapshot (c : Clientset) (ns name : String) (d : Deployment)
    (now : Nat) (hfault : c.advance.2 = none) (hd : c.advance.1.find ns name = some d) :
    (GetDeploymentStatus c ns name).1 =
        Except.ok
          { Name := d.Name
            Namespace := d.Namespace
            DesiredReplicas := (match d.Replicas with
              | some r => r
              | none => 0)
            CurrentReplicas := d.StatusReplicas
            AvailableReplicas := d.AvailableReplicas
            UpdatedReplicas := d.UpdatedReplicas
            CreationTime := d.CreationTimestamp } ∧
      d.Name = name ∧ d.Namespace = ns ∧
      (∀ r, d.Replicas = some r →
        ∃ st, (GetDeploymentStatus c ns name).1 = Except.ok st ∧ st.DesiredReplicas = r) ∧
      (d.Replicas = none →
        (∃ st, (GetDeploymentStatus c ns name).1 = Except.ok st ∧ st.DesiredReplicas = 0) ∧
          reportedStatus (demoHandler.GetStatus c ns name now).1 = some "inactive") := by
  have hg := Clientset.Get_present c ns name d hfault hd
  have hkey := lookup_key hd
  have hq : GetDeploymentStatus c ns name =
      (Except.ok
        { Name := d.Name
          Namespace := d.Namespace
          DesiredReplicas := (match d.Replicas with
            | some r => r
            | none => 0)
          CurrentReplicas := d.StatusReplicas
          AvailableReplicas := d.AvailableReplicas
          UpdatedReplicas := d.UpdatedReplicas
          CreationTime := d.CreationTimestamp }, c.advance.1.record (Action.get ns name)) := by
    simp only [GetDeploymentStatus, hg]
  refine ⟨by rw [hq], hkey.2, hkey.1, ?_, ?_⟩
  · intro r hr
    exact ⟨_, by rw [hq], by simp [hr]⟩
  · intro hnone
    refine ⟨⟨_, by rw [hq], by simp [hnone]⟩, ?_⟩
    simp [DeploymentHandler.GetStatus, demoHandler, NewDeploymentHandler, Client, hq,
      reportedStatus, determineStatus, hnone, models.StatusInactive]

/-- Witness for C26: the snapshot of `demoCluster` (the counters of
`TestGetDeploymentStatus_Success`) and the "inactive" report for a deployment
without a replica count. -/
theorem getDeploymentStatus_snapshot_witness :
    (GetDeploymentStatus demoCluster "test-ns" "test-app").1 =
        Except.ok
          { Name := "test-app", Namespace := "test-ns", DesiredReplicas := 3,
            CurrentReplicas := 3, AvailableReplicas := 2, UpdatedReplicas := 2,
            CreationTime := 100 } ∧
      reportedStatus (demoHandler.GetStatus bareCluster "test-ns" "test-app" 7).1 =
        some "inactive" :=
  ⟨(getDeploymentStatus_snapshot demoCluster "test-ns" "test-app" demoDeployment 7
      rfl rfl).1,
    ((getDeploymentStatus_snapshot bareCluster "test-ns" "test-app"
      { demoDeployment with Replicas := none } 7 rfl rfl).2.2.2.2 rfl).2⟩

namespace Clientset

theorem Update_stale (c : Clientset) (ns : String) (obj cur : Deployment)
    (hfault : c.advance.2 = none) (hns : obj.Namespace = ns)
    (hcur : c.advance.1.find ns obj.Name = some cur)
    (hv : obj.ResourceVersion ≠ cur.ResourceVersion) :
    c.Update ns obj =
      (Except.error (NewConflict obj.Name), c.advance.1.record (Action.update ns obj)) := by
  unfold Update
  simp [hfault, find_record, hcur, hns, hv]

end Clientset

/-- C27: the object `ScaleDeployment` submits in its update is the object it
read in the same call with only the desired replica count changed: it carries
the resource version of that read and every other field of the snapshot, and
`Spec.Replicas` is the target.  The write is therefore conditional on that
version: if the stored object has another version when the update is served,
the call fails with a conflict and stores nothing. -/
theorem update_is_read_object (c c1 : Clientset) (ns name : String) (replicas : Int)
    (d : Deployment) (hg : c.Get ns name = (Except.ok d, c1)) :
    (∃ obj : Deployment,
        (ScaleDeployment c ns name replicas).2.actions =
          c.actions ++ [Action.get ns name, Action.update ns obj] ∧
        obj.ResourceVersion = d.ResourceVersion ∧
        obj.Replicas = some replicas ∧
        obj.Name = d.Name ∧ obj.Namespace = d.Namespace ∧
        obj.CreationTimestamp = d.CreationTimestamp ∧
        obj.StatusReplicas = d.StatusReplicas ∧
        obj.UpdatedReplicas = d.UpdatedReplicas ∧
        obj.AvailableReplicas = d.AvailableReplicas) ∧
      (∀ cur : Deployment, c1.advance.2 = none → c1.advance.1.find ns name = some cur →
        cur.ResourceVersion ≠ d.ResourceVersion →
        (∃ e, (ScaleDeployment c ns name replicas).1 = some e ∧ IsConflict e = true) ∧
          (ScaleDeployment c ns name replicas).2.tracker = c1.advance.1.tracker) := by
  constructor
  · exact ⟨{ d with Replicas := some replicas }, scaleDeployment_actions replicas hg,
      rfl, rfl, rfl, rfl, rfl, rfl, rfl, rfl⟩
  · intro cur hfault hcur hv
    have hkey := lookup_key (Clientset.Get_ok hg).2.1
    have hu := Clientset.Update_stale c1 ns { d with Replicas := some replicas } cur hfault
      hkey.1 (by simpa [hkey.2] using hcur) (fun h => hv h.symm)
    have hs : ScaleDeployment c ns name replicas =
        (some (GoError.wrapf ("failed to update deployment " ++ ns ++ "/" ++ name ++ ": ")
          (NewConflict d.Name)),
          c1.advance.1.record (Action.update ns { d with Replicas := some replicas })) := by
      simp only [ScaleDeployment, hg, hu]
    rw [hs]
    exact ⟨⟨_, rfl, rfl⟩, rfl⟩

/-- Witness for C27 on `raceCluster`: the update carries version 1, the one
read, while the store has moved to version 2; the call fails with a conflict
and the other writer's count 5 stays. -/
theorem update_is_read_object_witness :
    (ScaleDeployment raceCluster "test-ns" "test-app" 2).2.actions =
        [Action.get "test-ns" "test-app",
          Action.update "test-ns" { demoDeployment with Replicas := some 2 }] ∧
      (ScaleDeployment raceCluster "test-ns" "test-app" 2).2.desired "test-ns" "test-app" =
        some 5 :=
  ⟨(update_is_read_object raceCluster _ "test-ns" "test-app" 2 demoDeployment race_get).1.elim
      (fun _ _ => rfl),
    congrArg (fun t => (lookup t "test-ns" "test-app").bind fun d => d.Replicas)
      (((update_is_read_object raceCluster _ "test-ns" "test-app" 2 demoDeployment
        race_get).2 { demoDeployment with Replicas := some 5, ResourceVersion := 2 }
        rfl rfl (by decide)).2)⟩

/-- C28, counterexample: on `raceCluster` another client scales the
deployment from 3 to 5 between the handler's status read and the read inside
`ScaleDeployment`.  `ScaleToZero` succeeds and reports `previous_replicas = 3`,
while the committed update is tagged with version 2, the snapshot whose
desired count was 5: the write replaced 5, not 3. -/
theorem previous_not_replaced_count :
    (demoHandler.ScaleToZero raceCluster "test-ns" "test-app"
        (Body.json ⟨"Test", none⟩) 7).1.1 = 200 ∧
      previousReplicas (demoHandler.ScaleToZero raceCluster "test-ns" "test-app"
        (Body.json ⟨"Test", none⟩) 7).1 = some 3 ∧
      (demoHandler.ScaleToZero raceCluster "test-ns" "test-app"
        (Body.json ⟨"Test", none⟩) 7).2.actions =
        [Action.get "test-ns" "test-app", Action.get "test-ns" "test-app",
          Action.update "test-ns"
            { demoDeployment with Replicas := some 0, ResourceVersion := 2 }] ∧
      (raceCluster.drift 2).find "test-ns" "test-app" =
        some { demoDeployment with Replicas := some 5, ResourceVersion := 2 } ∧
      (demoHandler.ScaleToZero raceCluster "test-ns" "test-app"
        (Body.json ⟨"Test", none⟩) 7).2.desired "test-ns" "test-app" = some 0 := by
  refine ⟨rfl, rfl, rfl, rfl, rfl⟩

/-- A successful scale through the production client, after a successful
status read: the two snapshots involved and the calls made. -/
theorem scale_after_read (c c1 : Clientset) (ns name : String) (target : Int)
    (st : DeploymentStatus)
    (hread : GetDeploymentStatus c ns name = (Except.ok st, c1))
    (hok : (ScaleDeployment c1 ns name target).1 = none) :
    ∃ d1 d2 : Deployment,
      c.advance.1.find ns name = some d1 ∧ (c.drift 2).find ns name = some d2 ∧
      st.DesiredReplicas = d1.Replicas.getD 0 ∧
      (ScaleDeployment c1 ns name target).2.actions =
        c.actions ++ [Action.get ns name, Action.get ns name,
          Action.update ns { d2 with Replicas := some target }] := by
  rcases hg : c.Get ns name with ⟨r, c1x⟩
  cases r with
  | error e => simp [GetDeploymentStatus, hg] at hread
  | ok d1 =>
    have hg1 := Clientset.Get_ok hg
    simp only [GetDeploymentStatus, hg, Prod.mk.injEq, Except.ok.injEq] at hread
    obtain ⟨hst, hc1⟩ := hread
    subst hc1
    rcases scaleDeployment_cases c1x ns name target with
      ⟨e, c2, _, hr⟩ | ⟨d, c2, e, c3, _, _, hr⟩ | ⟨d2, c2, st2, c3, hg2, _, _⟩
    · rw [hr] at hok
      simp at hok
    · rw [hr] at hok
      simp at hok
    · have hg2' := Clientset.Get_ok hg2
      have hact := scaleDeployment_actions target hg2
      refine ⟨d1, d2, hg1.2.1, ?_, ?_, ?_⟩
      · have h := hg2'.2.1
        rw [hg1.2.2, Clientset.advance_record, Clientset.find_record] at h
        rw [Clientset.drift_two]
        exact h
      · rw [← hst]
        cases d1.Replicas <;> rfl
      · rw [hact, hg1.2.2]
        simp [Clientset.record, Clientset.advance_actions]

/-- A 200 from `ScaleToZero` means every step succeeded. -/
theorem scaleToZero_200 {σ : Type} (h : DeploymentHandler σ) (s : σ) (ns name : String)
    (body : Body models.ScaleRequest) (now : Nat)
    (h200 : (h.ScaleToZero s ns name body now).1.1 = 200) :
    ∃ (req : models.ScaleRequest) (st : DeploymentStatus) (s1 s2 : σ),
      ShouldBindScaleRequest body = Except.ok req ∧
      h.k8sClient.GetDeploymentStatus s ns name = (Except.ok st, s1) ∧
      h.k8sClient.ScaleDeployment s1 ns name 0 = (none, s2) ∧
      (h.ScaleToZero s ns name body now).2 = s2 ∧
      previousReplicas (h.ScaleToZero s ns name body now).1 = some st.DesiredReplicas := by
  cases hb : ShouldBindScaleRequest body with
  | error err => simp [DeploymentHandler.ScaleToZero, hb] at h200
  | ok req =>
    rcases hr : h.k8sClient.GetDeploymentStatus s ns name with ⟨r, s1⟩
    cases r with
    | error e => simp [DeploymentHandler.ScaleToZero, hb, hr] at h200
    | ok st =>
      rcases hs : h.k8sClient.ScaleDeployment s1 ns name 0 with ⟨e, s2⟩
      cases e with
      | some e => simp [DeploymentHandler.ScaleToZero, hb, hr, hs] at h200
      | none =>
        exact ⟨req, st, s1, s2, rfl, rfl, hs,
          by simp [DeploymentHandler.ScaleToZero, hb, hr, hs],
          by simp [DeploymentHandler.ScaleToZero, hb, hr, hs, previousReplicas]⟩

/-- A 200 from `ScaleUp` means every step succeeded. -/
theorem scaleUp_200 {σ : Type} (h : DeploymentHandler σ) (s : σ) (ns name : String)
    (body : Body models.ScaleUpRequest) (now : Nat)
    (h200 : (h.ScaleUp s ns name body now).1.1 = 200) :
    ∃ (req : models.ScaleUpRequest) (st : DeploymentStatus) (s1 s2 : σ),
      ShouldBindScaleUpRequest body = Except.ok req ∧
      h.k8sClient.GetDeploymentStatus s ns name = (Except.ok st, s1) ∧
      h.k8sClient.ScaleDeployment s1 ns name req.Replicas = (none, s2) ∧
      (h.ScaleUp s ns name body now).2 = s2 ∧
      previousReplicas (h.ScaleUp s ns name body now).1 = some st.DesiredReplicas := by
  cases hb : ShouldBindScaleUpRequest body with
  | error err => simp [DeploymentHandler.ScaleUp, hb] at h200
  | ok req =>
    rcases hr : h.k8sClient.GetDeploymentStatus s ns name with ⟨r, s1⟩
    cases r with
    | error e => simp [DeploymentHandler.ScaleUp, hb, hr] at h200
    | ok st =>
      rcases hs : h.k8sClient.ScaleDeployment s1 ns name req.Replicas with ⟨e, s2⟩
      cases e with
      | some e => simp [DeploymentHandler.ScaleUp, hb, hr, hs] at h200
      | none =>
        exact ⟨req, st, s1, s2, rfl, rfl, hs,
          by simp [DeploymentHandler.ScaleUp, hb, hr, hs],
          by simp [DeploymentHandler.ScaleUp, hb, hr, hs, previousReplicas]⟩

/-- C28, amended: for every successful `ScaleToZero` or `ScaleUp` call through
the production client, the reported `previous_replicas` is the desired count
of the snapshot `d1` returned by the handler's own status read; the committed
update is the snapshot `d2` of a second read, made inside `ScaleDeployment`,
with the target count, so it is tagged with the resource version of `d2`.
`previous_replicas` equals the count the write replaced whenever the two
snapshots carry the same desired count, in particular when no other writer
acted between the two reads. -/
theorem previous_is_status_read (c : Clientset) (ns name : String)
    (zreq : models.ScaleRequest) (req : models.ScaleUpRequest) (now : Nat) :
    ((demoHandler.ScaleToZero c ns name (Body.json zreq) now).1.1 = 200 →
        ∃ d1 d2 : Deployment,
          c.advance.1.find ns name = some d1 ∧ (c.drift 2).find ns name = some d2 ∧
          previousReplicas (demoHandler.ScaleToZero c ns name (Body.json zreq) now).1 =
            some (d1.Replicas.getD 0) ∧
          (demoHandler.ScaleToZero c ns name (Body.json zreq) now).2.actions =
            c.actions ++ [Action.get ns name, Action.get ns name,
              Action.update ns { d2 with Replicas := some 0 }] ∧
          (d1.Replicas = d2.Replicas →
            previousReplicas (demoHandler.ScaleToZero c ns name (Body.json zreq) now).1 =
              some (d2.Replicas.getD 0))) ∧
      ((demoHandler.ScaleUp c ns name (Body.json req) now).1.1 = 200 →
        ∃ d1 d2 : Deployment,
          c.advance.1.find ns name = some d1 ∧ (c.drift 2).find ns name = some d2 ∧
          previousReplicas (demoHandler.ScaleUp c ns name (Body.json req) now).1 =
            some (d1.Replicas.getD 0) ∧
          (demoHandler.ScaleUp c ns name (Body.json req) now).2.actions =
            c.actions ++ [Action.get ns name, Action.get ns name,
              Action.update ns { d2 with Replicas := some req.Replicas }] ∧
          (d1.Replicas = d2.Replicas →
            previousReplicas (demoHandler.ScaleUp c ns name (Body.json req) now).1 =
              some (d2.Replicas.getD 0))) := by
  constructor
  · intro h200
    obtain ⟨r, st, c1, c2, _, hread, hscale, hstate, hprev⟩ :=
      scaleToZero_200 demoHandler c ns name (Body.json zreq) now h200
    have hok : (ScaleDeployment c1 ns name 0).1 = none := congrArg Prod.fst hscale
    obtain ⟨d1, d2, h1, h2, h3, h4⟩ := scale_after_read c c1 ns name 0 st hread hok
    have hc2 : (ScaleDeployment c1 ns name 0).2 = c2 := congrArg Prod.snd hscale
    refine ⟨d1, d2, h1, h2, ?_, ?_, ?_⟩
    · rw [hprev, h3]
    · rw [hstate, ← hc2]
      exact h4
    · intro heq
      rw [hprev, h3, heq]
  · intro h200
    obtain ⟨r, st, c1, c2, hb, hread, hscale, hstate, hprev⟩ :=
      scaleUp_200 demoHandler c ns name (Body.json req) now h200
    have hrq : r = req := bind_json_eq req r hb
    subst hrq
    have hok : (ScaleDeployment c1 ns name r.Replicas).1 = none := congrArg Prod.fst hscale
    obtain ⟨d1, d2, h1, h2, h3, h4⟩ := scale_after_read c c1 ns name r.Replicas st hread hok
    have hc2 : (ScaleDeployment c1 ns name r.Replicas).2 = c2 := congrArg Prod.snd hscale
    refine ⟨d1, d2, h1, h2, ?_, ?_, ?_⟩
    · rw [hprev, h3]
    · rw [hstate, ← hc2]
      exact h4
    · intro heq
      rw [hprev, h3, heq]

/-- Witness for C28, amended: on the quiet `demoCluster` both reads see the
same snapshot and `ScaleToZero` reports the replaced count 3. -/
theorem previous_is_status_read_witness :
    ∃ d1 d2 : Deployment,
      demoCluster.advance.1.find "test-ns" "test-app" = some d1 ∧
      (demoCluster.drift 2).find "test-ns" "test-app" = some d2 ∧
      previousReplicas (demoHandler.ScaleToZero demoCluster "test-ns" "test-app"
        (Body.json ⟨"Test", none⟩) 7).1 = some (d1.Replicas.getD 0) ∧
      (demoHandler.ScaleToZero demoCluster "test-ns" "test-app"
        (Body.json ⟨"Test", none⟩) 7).2.actions =
        demoCluster.actions ++ [Action.get "test-ns" "test-app",
          Action.get "test-ns" "test-app",
          Action.update "test-ns" { d2 with Replicas := some 0 }] ∧
      (d1.Replicas = d2.Replicas →
        previousReplicas (demoHandler.ScaleToZero demoCluster "test-ns" "test-app"
          (Body.json ⟨"Test", none⟩) 7).1 = some (d2.Replicas.getD 0)) :=
  (previous_is_status_read demoCluster "test-ns" "test-app" ⟨"Test", none⟩ ⟨2, "Test"⟩ 7).1
    rfl

end Snapshots

/-! ## No error is swallowed -/

section Propagation

open k8s handlers

/-- A 200 from `GetStatus` means the read succeeded. -/
theorem getStatus_200 {σ : Type} (h : DeploymentHandler σ) (s : σ) (ns name : String)
    (now : Nat) (h200 : (h.GetStatus s ns name now).1.1 = 200) :
    ∃ (st : DeploymentStatus) (s1 : σ),
      h.k8sClient.GetDeploymentStatus s ns name = (Except.ok st, s1) := by
  rcases hr : h.k8sClient.GetDeploymentStatus s ns name with ⟨r, s1⟩
  cases r with
  | error e => simp [DeploymentHandler.GetStatus, hr] at h200
  | ok st => exact ⟨st, s1, rfl⟩

/-- C21: no error is swallowed by the deployment handlers.  For `ScaleToZero`,
`ScaleUp` and `GetStatus`, over any client: whenever request binding, the
status read or the scale call returns an error, the response has a status code
of at least 400, status "error" and an error field equal to that error's
message; and a 200 response is produced only when every step succeeded. -/
theorem no_error_swallowed {σ : Type} (h : DeploymentHandler σ) (s : σ) (ns name : String)
    (now : Nat) :
    (∀ body : Body models.ScaleRequest,
        (∀ err, ShouldBindScaleRequest body = Except.error err →
          reportsError (h.ScaleToZero s ns name body now).1 err) ∧
        (∀ req e s1, ShouldBindScaleRequest body = Except.ok req →
          h.k8sClient.GetDeploymentStatus s ns name = (Except.error e, s1) →
          reportsError (h.ScaleToZero s ns name body now).1 e) ∧
        (∀ req st s1 e s2, ShouldBindScaleRequest body = Except.ok req →
          h.k8sClient.GetDeploymentStatus s ns name = (Except.ok st, s1) →
          h.k8sClient.ScaleDeployment s1 ns name 0 = (some e, s2) →
          reportsError (h.ScaleToZero s ns name body now).1 e) ∧
        ((h.ScaleToZero s ns name body now).1.1 = 200 →
          ∃ req st s1 s2, ShouldBindScaleRequest body = Except.ok req ∧
            h.k8sClient.GetDeploymentStatus s ns name = (Except.ok st, s1) ∧
            h.k8sClient.ScaleDeployment s1 ns name 0 = (none, s2))) ∧
      (∀ body : Body models.ScaleUpRequest,
        (∀ err, ShouldBindScaleUpRequest body = Except.error err →
          reportsError (h.ScaleUp s ns name body now).1 err) ∧
        (∀ req e s1, ShouldBindScaleUpRequest body = Except.ok req →
          h.k8sClient.GetDeploymentStatus s ns name = (Except.error e, s1) →
          reportsError (h.ScaleUp s ns name body now).1 e) ∧
        (∀ req st s1 e s2, ShouldBindScaleUpRequest body = Except.ok req →
          h.k8sClient.GetDeploymentStatus s ns name = (Except.ok st, s1) →
          h.k8sClient.ScaleDeployment s1 ns name req.Replicas = (some e, s2) →
          reportsError (h.ScaleUp s ns name body now).1 e) ∧
        ((h.ScaleUp s ns name body now).1.1 = 200 →
          ∃ req st s1 s2, ShouldBindScaleUpRequest body = Except.ok req ∧
            h.k8sClient.GetDeploymentStatus s ns name = (Except.ok st, s1) ∧
            h.k8sClient.ScaleDeployment s1 ns name req.Replicas = (none, s2))) ∧
      ((∀ e s1, h.k8sClient.GetDeploymentStatus s ns name = (Except.error e, s1) →
          statusReportsError (h.GetStatus s ns name now).1 e) ∧
        ((h.GetStatus s ns name now).1.1 = 200 →
          ∃ st s1, h.k8sClient.GetDeploymentStatus s ns name = (Except.ok st, s1))) := by
  refine ⟨?_, ?_, ?_, ?_⟩
  · intro body
    refine ⟨?_, ?_, ?_, ?_⟩
    · intro err hb
      simp [DeploymentHandler.ScaleToZero, hb, reportsError, models.StatusError]
    · intro req e s1 hb hr
      simp [DeploymentHandler.ScaleToZero, hb, hr, reportsError, models.StatusError]
    · intro req st s1 e s2 hb hr hs
      simp [DeploymentHandler.ScaleToZero, hb, hr, hs, reportsError, models.StatusError]
    · intro h200
      obtain ⟨req, st, s1, s2, hb, hr, hs, _, _⟩ := scaleToZero_200 h s ns name body now h200
      exact ⟨req, st, s1, s2, hb, hr, hs⟩
  · intro body
    refine ⟨?_, ?_, ?_, ?_⟩
    · intro err hb
      simp [DeploymentHandler.ScaleUp, hb, reportsError, models.StatusError]
    · intro req e s1 hb hr
      simp [DeploymentHandler.ScaleUp, hb, hr, reportsError, models.StatusError]
    · intro req st s1 e s2 hb hr hs
      simp [DeploymentHandler.ScaleUp, hb, hr, hs, reportsError, models.StatusError]
    · intro h200
      obtain ⟨req, st, s1, s2, hb, hr, hs, _, _⟩ := scaleUp_200 h s ns name body now h200
      exact ⟨req, st, s1, s2, hb, hr, hs⟩
  · intro e s1 hr
    simp [DeploymentHandler.GetStatus, hr, statusReportsError, models.StatusError]
  · exact getStatus_200 h s ns name now

/-- Witness for C21: malformed JSON sent to `ScaleToZero` (the setting of
`TestScaleToZero_InvalidJSON`) is answered with the decoder's message, and a
refused scale call on `forbiddenCluster` with the wrapped 403. -/
theorem no_error_swallowed_witness :
    reportsError (demoHandler.ScaleToZero demoCluster "test-ns" "test-app"
        (Body.malformed (GoError.plain "json: cannot unmarshal string")) 7).1
        (GoError.plain "json: cannot unmarshal string") ∧
      reportsError (demoHandler.ScaleToZero forbiddenCluster "test-ns" "test-app"
        (Body.json ⟨"Test", none⟩) 7).1
        (GoError.wrapf "failed to get deployment test-ns/test-app: "
          (GoError.status StatusReason.Forbidden 403 "deployments.apps is forbidden")) :=
  ⟨((no_error_swallowed demoHandler demoCluster "test-ns" "test-app" 7).1
      (Body.malformed (GoError.plain "json: cannot unmarshal string"))).1 _ rfl,
    ((no_error_swallowed demoHandler forbiddenCluster "test-ns" "test-app" 7).1
      (Body.json ⟨"Test", none⟩)).2.2.1 ⟨"Test", none⟩ _ _ _ _ rfl forbidden_read rfl⟩

end Propagation

/-! ## The authentication middleware -/

section Middleware

open middleware

/-- C24: `RequireNamespace(allowed)` lets a request through if and only if
the namespace path parameter is empty, or `allowed` is empty, or the namespace
is an element of `allowed`; in every other case it aborts with 403 and echoes
the denied namespace. -/
theorem requireNamespace_passes (allowed : List String) (ns : String) :
    (RequireNamespace allowed ns = Flow.next ↔ (ns = "" ∨ allowed = [] ∨ ns ∈ allowed)) ∧
      (¬ (ns = "" ∨ allowed = [] ∨ ns ∈ allowed) →
        RequireNamespace allowed ns =
          Flow.abort 403 [("error", "Access to namespace denied"), ("namespace", ns)]) := by
  have hany : (allowed.any fun a => ns == a) = true ↔ ns ∈ allowed := by
    simp [List.any_eq_true]
  have hlen : allowed.length = 0 ↔ allowed = [] := List.length_eq_zero
  constructor
  · unfold RequireNamespace
    constructor
    · intro h
      by_cases h1 : ns = ""
      · exact Or.inl h1
      · by_cases h2 : allowed.length = 0
        · exact Or.inr (Or.inl (hlen.mp h2))
        · by_cases h3 : (allowed.any fun a => ns == a) = true
          · exact Or.inr (Or.inr (hany.mp h3))
          · simp [h1, h2, h3] at h
    · rintro (h | h | h)
      · simp [h]
      · simp [h]
      · have h3 := hany.mpr h
        by_cases h1 : ns = ""
        · simp [h1]
        · by_cases h2 : allowed.length = 0
          · simp [h1, h2]
          · simp only [h1, h2, h3, if_false, if_true]
  · intro h
    push_neg at h
    obtain ⟨h1, h2, h3⟩ := h
    have h2' : ¬ allowed.length = 0 := fun hh => h2 (hlen.mp hh)
    have h3' : ¬ (allowed.any fun a => ns == a) = true := fun hh => h3 (hany.mp hh)
    unfold RequireNamespace
    simp [h1, h2', h3']

/-- Witness for C24, the three cases of `TestRequireNamespace`. -/
theorem requireNamespace_passes_witness :
    RequireNamespace [] "any-namespace" = Flow.next ∧
      RequireNamespace ["default", "project-a"] "default" = Flow.next ∧
      RequireNamespace ["default", "project-a"] "project-b" =
        Flow.abort 403 [("error", "Access to namespace denied"), ("namespace", "project-b")] :=
  ⟨(requireNamespace_passes [] "any-namespace").1.mpr (Or.inr (Or.inl rfl)),
    (requireNamespace_passes ["default", "project-a"] "default").1.mpr
      (Or.inr (Or.inr (by decide))),
    (requireNamespace_passes ["default", "project-a"] "project-b").2 (by decide)⟩

/-- `isPathExcluded` is an exact match or a prefix match. -/
theorem isPathExcluded_iff (path : String) (paths prefixes : List String) :
    isPathExcluded path paths prefixes = true ↔
      (path ∈ paths ∨ ∃ pre ∈ prefixes, pre.data <+: path.data) := by
  simp [isPathExcluded, HasPrefix, List.any_eq_true]

/-- C23: `APIKeyAuth` skips the credential check, letting every request
through whatever its `Authorization` header, if and only if the configured key
is empty or `isPathExcluded` holds; `isPathExcluded(path, paths, prefixes)` is
true exactly when `path` equals an element of `paths` or an element of
`prefixes` is a prefix of `path`; under the default configuration "/health" is
excluded and "/healthz" and "/swagger" are not. -/
theorem apiKeyAuth_skip (config : AuthConfig) (path : String) (env : String → String) :
    ((∀ authHeader, APIKeyAuth config path authHeader = Flow.next) ↔
        (config.APIKey = "" ∨
          isPathExcluded path config.ExcludedPaths config.ExcludedPrefixes = true)) ∧
      (∀ paths prefixes : List String,
        isPathExcluded path paths prefixes = true ↔
          (path ∈ paths ∨ ∃ pre ∈ prefixes, pre.data <+: path.data)) ∧
      isPathExcluded "/health" (NewAuthConfig env).ExcludedPaths
        (NewAuthConfig env).ExcludedPrefixes = true ∧
      isPathExcluded "/healthz" (NewAuthConfig env).ExcludedPaths
        (NewAuthConfig env).ExcludedPrefixes = false ∧
      isPathExcluded "/swagger" (NewAuthConfig env).ExcludedPaths
        (NewAuthConfig env).ExcludedPrefixes = false := by
  refine ⟨⟨?_, ?_⟩, isPathExcluded_iff path, ?_, ?_, ?_⟩
  rotate_left 2
  · show isPathExcluded "/health" ["/health", "/ready"] ["/swagger/", "/docs/"] = true
    decide
  · show isPathExcluded "/healthz" ["/health", "/ready"] ["/swagger/", "/docs/"] = false
    decide
  · show isPathExcluded "/swagger" ["/health", "/ready"] ["/swagger/", "/docs/"] = false
    decide
  · intro hall
    by_contra hno
    push_neg at hno
    have h := hall ""
    simp [APIKeyAuth, hno.1, hno.2] at h
  · rintro (h | h) authHeader
    · simp [APIKeyAuth, h]
    · simp [APIKeyAuth, h]

/-- Witness for C23: with a key configured, "/health" is let through without
credentials (the second case of `TestAPIKeyAuth`). -/
theorem apiKeyAuth_skip_witness :
    ∀ authHeader, APIKeyAuth (NewAuthConfig fun _ => "test-key") "/health" authHeader =
      Flow.next :=
  (apiKeyAuth_skip (NewAuthConfig fun _ => "test-key") "/health" (fun _ => "test-key")).1.mpr
    (Or.inr (by decide))

theorem split_data (s : String) (sep : Char) (parts : List String)
    (h : Split s sep = parts) : s.data.splitOn sep = parts.map String.data := by
  have h2 := congrArg (List.map String.data) h
  simpa [Split, List.map_map, Function.comp_def] using h2

/-- Two pieces mean exactly one separator: the string is the first piece, the
separator, the second piece. -/
theorem split_two (s : String) (sep : Char) (p0 p1 : String)
    (h : Split s sep = [p0, p1]) : s = p0 ++ String.singleton sep ++ p1 := by
  have hd := split_data s sep [p0, p1] h
  have hi := List.intercalate_splitOn s.data sep
  rw [hd] at hi
  apply String.ext
  rw [← hi]
  simp [List.intercalate, String.data_append, String.singleton]

/-- No piece of a split contains the separator. -/
theorem splitOnP_no_sep (p : Char → Bool) (xs : List Char) :
    ∀ l ∈ xs.splitOnP p, ∀ a ∈ l, p a = false := by
  induction xs with
  | nil =>
    intro l hl a ha
    simp at hl
    subst hl
    simp at ha
  | cons x xs ih =>
    intro l hl a ha
    rw [List.splitOnP_cons] at hl
    by_cases hx : p x = true
    · simp only [hx, if_true, List.mem_cons] at hl
      rcases hl with h | h
      · subst h
        simp at ha
      · exact ih l h a ha
    · simp only [hx] at hl
      cases hsp : xs.splitOnP p with
      | nil => exact absurd hsp (List.splitOnP_ne_nil p xs)
      | cons hd tl =>
        rw [hsp] at hl ih
        simp only [Bool.false_eq_true, if_false, List.modifyHead_cons, List.mem_cons] at hl
        rcases hl with h | h
        · subst h
          rcases List.mem_cons.mp ha with h1 | h1
          · subst h1
            simpa using hx
          · exact ih hd (List.mem_cons_self _ _) a h1
        · exact ih l (List.mem_cons_of_mem _ h) a ha

theorem split_no_sep (s : String) (sep : Char) (piece : String)
    (h : piece ∈ Split s sep) : sep ∉ piece.data := by
  unfold Split at h
  rw [List.mem_map] at h
  obtain ⟨l, hl, hp⟩ := h
  subst hp
  intro hmem
  have := splitOnP_no_sep (fun c => c == sep) s.data l hl sep hmem
  simp at this

/-- Splitting "Bearer " followed by a key without a space gives the two
pieces "Bearer" and the key. -/
theorem split_bearer (key : String) (hk : ' ' ∉ key.data) :
    Split ("Bearer " ++ key) ' ' = ["Bearer", key] := by
  have hdata : ("Bearer " ++ key).data = [' '].intercalate ["Bearer".data, key.data] := by
    simp [List.intercalate, String.data_append]
  unfold Split
  rw [hdata, List.splitOn_intercalate]
  · rfl
  · intro l hl
    simp only [List.mem_cons, List.mem_singleton, List.not_mem_nil, or_false] at hl
    rcases hl with h | h
    · subst h
      decide
    · subst h
      exact hk
  · simp

theorem split_empty : Split "" ' ' = [""] := by decide

/-- With a key configured and a path that is not excluded, a request is let
through exactly when its header splits on spaces into "Bearer" and the key. -/
theorem apiKeyAuth_next_iff (config : AuthConfig) (path authHeader : String)
    (hkey : config.APIKey ≠ "")
    (hpath : isPathExcluded path config.ExcludedPaths config.ExcludedPrefixes = false) :
    APIKeyAuth config path authHeader = Flow.next ↔
      Split authHeader ' ' = ["Bearer", config.APIKey] := by
  by_cases hne : authHeader = ""
  · subst hne
    simp [APIKeyAuth, hkey, hpath, split_empty]
  · rcases hsp : Split authHeader ' ' with _ | ⟨p0, _ | ⟨p1, _ | ⟨p2, rest⟩⟩⟩
    · simp [APIKeyAuth, hkey, hpath, hne, hsp]
    · simp [APIKeyAuth, hkey, hpath, hne, hsp]
    · by_cases h0 : p0 = "Bearer"
      · by_cases h1 : p1 = config.APIKey
        · simp [APIKeyAuth, hkey, hpath, hne, hsp, h0, h1]
        · simp [APIKeyAuth, hkey, hpath, hne, hsp, h0, h1]
      · simp [APIKeyAuth, hkey, hpath, hne, hsp, h0]
    · simp [APIKeyAuth, hkey, hpath, hne, hsp]

/-- C22, counterexample: the configured key "a b" contains a space; the
header "Bearer a b" is exactly "Bearer " followed by the key, the path is not
excluded, and the request is refused with 401 for its format. -/
theorem bearer_key_with_space_rejected :
    APIKeyAuth
        { APIKey := "a b"
          ExcludedPaths := ["/health", "/ready"]
          ExcludedPrefixes := ["/swagger/", "/docs/"] }
        "/api/v1/test" "Bearer a b" =
        Flow.abort 401 [("error", "Invalid authorization format. Use: Bearer <api-key>")] ∧
      "Bearer a b" = "Bearer " ++ "a b" ∧
      isPathExcluded "/api/v1/test" ["/health", "/ready"] ["/swagger/", "/docs/"] = false := by
  decide

/-- C22, amended: with a non-empty configured key and a path that is not
excluded, `APIKeyAuth` lets a request through if and only if its
`Authorization` header is exactly "Bearer " followed by the configured key and
that key contains no space (a key with a space lets no request through);
otherwise it aborts with 401: "Authorization header required" when the header
is empty, "Invalid authorization format. Use: Bearer <api-key>" when the
header is not two space-separated parts starting with Bearer, "Invalid API
key" when the second part differs from the key. -/
theorem apiKeyAuth_bearer (config : AuthConfig) (path authHeader : String)
    (hkey : config.APIKey ≠ "")
    (hpath : isPathExcluded path config.ExcludedPaths config.ExcludedPrefixes = false) :
    (APIKeyAuth config path authHeader = Flow.next ↔
        (authHeader = "Bearer " ++ config.APIKey ∧ ' ' ∉ config.APIKey.data)) ∧
      (authHeader = "" →
        APIKeyAuth config path authHeader =
          Flow.abort 401 [("error", "Authorization header required")]) ∧
      (authHeader ≠ "" → (∀ k, Split authHeader ' ' ≠ ["Bearer", k]) →
        APIKeyAuth config path authHeader =
          Flow.abort 401 [("error", "Invalid authorization format. Use: Bearer <api-key>")]) ∧
      (∀ k, Split authHeader ' ' = ["Bearer", k] → k ≠ config.APIKey →
        APIKeyAuth config path authHeader =
          Flow.abort 401 [("error", "Invalid API key")]) := by
  refine ⟨?_, ?_, ?_, ?_⟩
  · rw [apiKeyAuth_next_iff config path authHeader hkey hpath]
    constructor
    · intro hsp
      refine ⟨?_, split_no_sep authHeader ' ' config.APIKey (by rw [hsp]; simp)⟩
      have h := split_two authHeader ' ' "Bearer" config.APIKey hsp
      rw [h]
      rfl
    · rintro ⟨hh, hk⟩
      rw [hh]
      exact split_bearer config.APIKey hk
  · intro hh
    simp [APIKeyAuth, hkey, hpath, hh]
  · intro hne hno
    rcases hsp : Split authHeader ' ' with _ | ⟨p0, _ | ⟨p1, _ | ⟨p2, rest⟩⟩⟩
    · simp [APIKeyAuth, hkey, hpath, hne, hsp]
    · simp [APIKeyAuth, hkey, hpath, hne, hsp]
    · have h0 : p0 ≠ "Bearer" := by
        intro h0
        exact hno p1 (by rw [hsp, h0])
      simp [APIKeyAuth, hkey, hpath, hne, hsp, h0]
    · simp [APIKeyAuth, hkey, hpath, hne, hsp]
  · intro k hsp hk
    have hne : authHeader ≠ "" := by
      intro hh
      rw [hh, split_empty] at hsp
      simp at hsp
    simp [APIKeyAuth, hkey, hpath, hne, hsp, hk]

/-- Witness for C22, amended, the last three cases of `TestAPIKeyAuth`: the
right key passes, a wrong key and a bare key are refused. -/
theorem apiKeyAuth_bearer_witness :
    APIKeyAuth (NewAuthConfig fun _ => "test-key") "/api/v1/test" "Bearer test-key" =
        Flow.next ∧
      APIKeyAuth (NewAuthConfig fun _ => "test-key") "/api/v1/test" "Bearer wrong-key" =
        Flow.abort 401 [("error", "Invalid API key")] ∧
      APIKeyAuth (NewAuthConfig fun _ => "test-key") "/api/v1/test" "" =
        Flow.abort 401 [("error", "Authorization header required")] :=
  ⟨(apiKeyAuth_bearer (NewAuthConfig fun _ => "test-key") "/api/v1/test" "Bearer test-key"
      (by decide) (by decide)).1.mpr ⟨rfl, by decide⟩,
    (apiKeyAuth_bearer (NewAuthConfig fun _ => "test-key") "/api/v1/test" "Bearer wrong-key"
      (by decide) (by decide)).2.2.2 "wrong-key" (by decide) (by decide),
    (apiKeyAuth_bearer (NewAuthConfig fun _ => "test-key") "/api/v1/test" ""
      (by decide) (by decide)).2.1 rfl⟩

end Middleware

/-! ## Pagination (`SendPaginated`) -/

section Pagination

open utils

/-- A value inside the 64-bit range is left alone by the wrap-around. -/
theorem wrapInt_of_fits (x : Int) (h1 : -(2 ^ 63) ≤ x) (h2 : x < 2 ^ 63) : wrapInt x = x := by
  unfold wrapInt
  omega

/-- The sum `total + perPage - 1`, computed left to right with wrap-around, is
the exact sum when that sum fits. -/
theorem wrapInt_sum (total perPage : Int) (htotal : 0 ≤ total) (hper : 1 ≤ perPage)
    (hfit : total + perPage - 1 < 2 ^ 63) :
    wrapInt (wrapInt (total + perPage) - 1) = total + perPage - 1 := by
  unfold wrapInt
  omega

/-- Truncating division of `total + perPage - 1` by `perPage` is the ceiling of
the exact quotient. -/
theorem tdiv_ceil (total perPage : Int) (htotal : 0 ≤ total) (hper : 1 ≤ perPage) :
    Int.tdiv (total + perPage - 1) perPage = ⌈(total : ℚ) / (perPage : ℚ)⌉ := by
  have hpos : (0 : Int) < perPage := by omega
  rw [Int.tdiv_eq_ediv (by omega) (by omega)]
  symm
  rw [Int.ceil_eq_iff]
  have hq : (0 : ℚ) < (perPage : ℚ) := by exact_mod_cast hpos
  have hdm := Int.emod_add_ediv (total + perPage - 1) perPage
  have hlo := Int.emod_nonneg (total + perPage - 1) (by omega : perPage ≠ 0)
  have hhi := Int.emod_lt_of_pos (total + perPage - 1) hpos
  constructor
  · rw [lt_div_iff₀ hq]
    have h : ((total + perPage - 1) / perPage - 1) * perPage < total := by nlinarith
    exact_mod_cast h
  · rw [div_le_iff₀ hq]
    have h : total ≤ (total + perPage - 1) / perPage * perPage := by nlinarith
    exact_mod_cast h

/-- The page count is never negative and never above `total + perPage - 1`. -/
theorem tdiv_bounds (total perPage : Int) (htotal : 0 ≤ total) (hper : 1 ≤ perPage) :
    0 ≤ Int.tdiv (total + perPage - 1) perPage ∧
      Int.tdiv (total + perPage - 1) perPage ≤ total + perPage - 1 := by
  rw [Int.tdiv_eq_ediv (by omega) (by omega)]
  constructor
  · exact Int.ediv_nonneg (by omega) (by omega)
  · exact Int.ediv_le_self _ (by omega)

/-- The response of `SendPaginated` when the page count is computed without
overflow: 200, the arguments passed through, and the ceiling as page count. -/
theorem sendPaginated_ceil {α : Type} (items : α) (total page perPage : Int) (now : Nat)
    (htotal : 0 ≤ total) (hper : 1 ≤ perPage) (hfit : total + perPage - 1 < 2 ^ 63) :
    SendPaginated items total page perPage now =
      Returned.value (200,
        { Success := true
          Message := "Data retrieved successfully"
          Data := some
            { Items := items
              Total := total
              Page := page
              PerPage := perPage
              TotalPages := ⌈(total : ℚ) / (perPage : ℚ)⌉ }
          Error := ""
          Timestamp := now }) := by
  have hne : perPage ≠ 0 := by omega
  have hb := tdiv_bounds total perPage htotal hper
  have hpages :
      wrapInt (Int.tdiv (wrapInt (wrapInt (total + perPage) - 1)) perPage) =
        ⌈(total : ℚ) / (perPage : ℚ)⌉ := by
    rw [wrapInt_sum total perPage htotal hper hfit,
      wrapInt_of_fits _ (by omega) (by omega)]
    exact tdiv_ceil total perPage htotal hper
  simp only [SendPaginated, hne, if_false, OK, SendSuccess, hpages]

/-- C30: for `total ≥ 0` and `perPage ≥ 1` whose sum `total + perPage - 1` fits
the 64-bit `int`, `SendPaginated` answers 200 with `total_pages` the ceiling of
`total / perPage` and with items, total, page and per_page as given; this is 0
pages for `total = 0` and 4 pages for `total = 10`, `perPage = 3`; and for
`perPage = 0` the call panics with an integer division by zero instead of
answering. -/
theorem sendPaginated_total_pages :
    (∀ (α : Type) (items : α) (total page perPage : Int) (now : Nat),
        0 ≤ total → 1 ≤ perPage → total + perPage - 1 < 2 ^ 63 →
        SendPaginated items total page perPage now =
          Returned.value (200,
            { Success := true
              Message := "Data retrieved successfully"
              Data := some
                { Items := items
                  Total := total
                  Page := page
                  PerPage := perPage
                  TotalPages := ⌈(total : ℚ) / (perPage : ℚ)⌉ }
              Error := ""
              Timestamp := now })) ∧
      (∀ (α : Type) (items : α) (page perPage : Int) (now : Nat),
        1 ≤ perPage → perPage - 1 < 2 ^ 63 →
        SendPaginated items 0 page perPage now =
          Returned.value (200,
            { Success := true
              Message := "Data retrieved successfully"
              Data := some
                { Items := items, Total := 0, Page := page, PerPage := perPage, TotalPages := 0 }
              Error := ""
              Timestamp := now })) ∧
      (∀ (α : Type) (items : α) (page : Int) (now : Nat),
        SendPaginated items 10 page 3 now =
          Returned.value (200,
            { Success := true
              Message := "Data retrieved successfully"
              Data := some
                { Items := items, Total := 10, Page := page, PerPage := 3, TotalPages := 4 }
              Error := ""
              Timestamp := now })) ∧
      (∀ (α : Type) (items : α) (total page : Int) (now : Nat),
        SendPaginated items total page 0 now =
          Returned.panic "runtime error: integer divide by zero") := by
  refine ⟨?_, ?_, ?_, ?_⟩
  · intro α items total page perPage now htotal hper hfit
    exact sendPaginated_ceil items total page perPage now htotal hper hfit
  · intro α items page perPage now hper hfit
    rw [sendPaginated_ceil items 0 page perPage now (le_refl 0) hper (by omega)]
    simp
  · intro α items page now
    rfl
  · intro α items total page now
    rfl

/-- Witness for C30, the request of `TestSendPaginated`: three items of ten,
page 1, three per page. -/
theorem sendPaginated_total_pages_witness :
    SendPaginated [1, 2, 3] 10 1 3 0 =
      Returned.value (200,
        { Success := true
          Message := "Data retrieved successfully"
          Data := some
            { Items := [1, 2, 3]
              Total := 10
              Page := 1
              PerPage := 3
              TotalPages := ⌈((10 : Int) : ℚ) / ((3 : Int) : ℚ)⌉ }
          Error := ""
          Timestamp := 0 }) :=
  sendPaginated_total_pages.1 (List Nat) [1, 2, 3] 10 1 3 0 (by decide) (by decide)
    (by decide)

end Pagination

/-! ## Readiness after a failed client initialisation -/

section Readiness

open handlers

/-- C29, the code at the failing input: when `NewClient` fails, at either of
its two steps, the handler `main` builds holds a nil `*Client` inside a non-nil
interface value, so `Ready` passes the nil test, panics in `GetClientset`, and
the recovery middleware answers 500 with no body; a handler constructed with
the nil interface answers 503 "not ready". -/
theorem ready_after_failed_init (err : GoError) (time : String)
    (newForConfig : Except GoError KubernetesInterface) :
    (mainHealthHandler (some err) newForConfig).Ready time =
        Returned.panic "runtime error: invalid memory address or nil pointer dereference" ∧
      (mainHealthHandler none (Except.error err)).Ready time =
        Returned.panic "runtime error: invalid memory address or nil pointer dereference" ∧
      Recovery ((mainHealthHandler (some err) newForConfig).Ready time) = (500, []) ∧
      Recovery ((mainHealthHandler none (Except.error err)).Ready time) = (500, []) ∧
      (NewHealthHandler ClientValue.nilInterface).Ready time =
        Returned.value (503, [("status", "not ready"),
          ("error", "Kubernetes client not available"), ("time", time)]) :=
  ⟨rfl, rfl, rfl, rfl, rfl⟩

end Readiness

/-! ## Configuration (`validate`, `GetConfig`) -/

section Configuration

open config

/-- The lookup in `validLogLevels` succeeds for the five level names only. -/
theorem validLogLevels_iff (level : String) :
    validLogLevels level = true ↔ level ∈ ["debug", "info", "warn", "error", "fatal"] := by
  simp [validLogLevels, or_assoc]

/-- What `validate` accepts. -/
theorem validate_none_iff (c : Config) :
    c.validate = none ↔
      (∃ p : Int, Atoi c.Port = some p ∧ 1 ≤ p ∧ p ≤ 65535) ∧
        c.LogLevel ∈ ["debug", "info", "warn", "error", "fatal"] := by
  rw [← validLogLevels_iff]
  unfold Config.validate
  cases hp : Atoi c.Port with
  | none => simp
  | some port =>
    by_cases hr : port < 1 ∨ port > 65535
    · have : ¬ (1 ≤ port ∧ port ≤ 65535) := by omega
      simp [hr, this]
    · have : 1 ≤ port ∧ port ≤ 65535 := by omega
      cases hl : validLogLevels c.LogLevel <;> simp [hr, this]

/-- The first call of `GetConfig` returns exactly when the configuration read
from the environment is valid, and panics otherwise. -/
theorem getConfig_first (env : String → String) :
    (Config.validate
        { Port := getEnv env "PORT" DefaultPort
          LogLevel := getEnv env "LOG_LEVEL" DefaultLogLevel } = none →
      (GetConfig Globals.start env).1 = Returned.value (some
        { Port := getEnv env "PORT" DefaultPort
          LogLevel := getEnv env "LOG_LEVEL" DefaultLogLevel })) ∧
    (∀ err, Config.validate
        { Port := getEnv env "PORT" DefaultPort
          LogLevel := getEnv env "LOG_LEVEL" DefaultLogLevel } = some err →
      (GetConfig Globals.start env).1 =
        Returned.panic ("invalid configuration: " ++ err.Error)) := by
  constructor
  · intro hv
    simp [GetConfig, Globals.start, hv]
  · intro err hv
    simp [GetConfig, Globals.start, hv]

/-- Ports and levels that `validate` refuses: a port of 0, of 65536, one that is
not a number, an empty one, and a level outside the five names. -/
theorem validate_refuses :
    Config.validate { Port := "0", LogLevel := "info" } =
        some (GoError.plain "invalid port: 0") ∧
      Config.validate { Port := "65536", LogLevel := "info" } =
        some (GoError.plain "invalid port: 65536") ∧
      Config.validate { Port := "http", LogLevel := "info" } =
        some (GoError.plain "invalid port: http") ∧
      Config.validate { Port := "", LogLevel := "info" } =
        some (GoError.plain "invalid port: ") ∧
      Config.validate { Port := "8080", LogLevel := "trace" } =
        some (GoError.plain "invalid log level: trace") ∧
      Config.validate { Port := "65535", LogLevel := "fatal" } = none ∧
      Config.validate { Port := "1", LogLevel := "debug" } = none := by
  refine ⟨?_, ?_, ?_, ?_, ?_, ?_, ?_⟩ <;> rfl

/-- What a call of `GetConfig` does once `once.Do` has run: it returns the
stored configuration, whatever the environment, and changes nothing. -/
theorem getConfig_again (g : Globals) (env : String → String) (hd : g.onceDone = true) :
    GetConfig g env = (Returned.value g.inst, g) := by
  simp [GetConfig, hd]

/-- A first call that returns has stored the valid configuration it returns. -/
theorem getConfig_first_returns (env : String → String) (c : Option Config) (g1 : Globals)
    (h : GetConfig Globals.start env = (Returned.value c, g1)) :
    ∃ cfg, c = some cfg ∧ cfg.validate = none ∧ g1 = { inst := some cfg, onceDone := true } := by
  cases hv : Config.validate
      { Port := getEnv env "PORT" DefaultPort
        LogLevel := getEnv env "LOG_LEVEL" DefaultLogLevel } with
  | some err => simp [GetConfig, Globals.start, hv] at h
  | none =>
    simp only [GetConfig, Globals.start, hv, Bool.false_eq_true, if_false, Prod.mk.injEq,
      Returned.value.injEq] at h
    exact ⟨_, h.1.symm, hv, h.2.symm⟩

/-- A first call that panics has stored the invalid configuration it built. -/
theorem getConfig_first_panics (env : String → String) (msg : String) (g1 : Globals)
    (h : GetConfig Globals.start env = (Returned.panic msg, g1)) :
    ∃ cfg, cfg.validate ≠ none ∧ g1 = { inst := some cfg, onceDone := true } := by
  cases hv : Config.validate
      { Port := getEnv env "PORT" DefaultPort
        LogLevel := getEnv env "LOG_LEVEL" DefaultLogLevel } with
  | none => simp [GetConfig, Globals.start, hv] at h
  | some err =>
    simp only [GetConfig, Globals.start, hv, Bool.false_eq_true, if_false, Prod.mk.injEq] at h
    exact ⟨_, by rw [hv]; simp, h.2.symm⟩

/-- C25, counterexample: with `PORT=0` the first call of `GetConfig` panics,
after it has stored the configuration and `once.Do` has counted the function
as run; a caller that recovers the panic and calls `GetConfig` again is handed
the stored configuration with port "0", which `validate` refuses. -/
theorem getConfig_after_panic :
    GetConfig Globals.start (fun key => if key = "PORT" then "0" else "") =
        (Returned.panic "invalid configuration: invalid port: 0",
          { inst := some { Port := "0", LogLevel := "info" }, onceDone := true }) ∧
      GetConfig { inst := some { Port := "0", LogLevel := "info" }, onceDone := true }
          (fun key => if key = "PORT" then "0" else "") =
        (Returned.value (some { Port := "0", LogLevel := "info" }),
          { inst := some { Port := "0", LogLevel := "info" }, onceDone := true }) ∧
      Config.validate { Port := "0", LogLevel := "info" } =
        some (GoError.plain "invalid port: 0") ∧
      ¬ ((∃ p : Int, Atoi "0" = some p ∧ 1 ≤ p ∧ p ≤ 65535) ∧
        "info" ∈ ["debug", "info", "warn", "error", "fatal"]) := by
  refine ⟨rfl, rfl, rfl, ?_⟩
  rintro ⟨⟨p, hp, h1, _⟩, _⟩
  have h0 : Atoi "0" = some 0 := by decide
  rw [h0] at hp
  simp only [Option.some.injEq] at hp
  omega

/-- C25, amended: `validate` returns no error exactly when the port parses as
a decimal integer between 1 and 65535 and the log level is one of debug, info,
warn, error, fatal.  The first call of `GetConfig` returns exactly when the
configuration read from the environment is valid, and panics otherwise.  When
the first call returns, the configuration it returns has both properties and
every later call returns that same configuration, whatever the environment
has become; when the first call panics, every later call returns the stored
configuration, which `validate` refuses.  The defaults "8080" and "info",
which `GetConfig` returns when the environment sets neither variable, are
valid. -/
theorem validate_characterised :
    (∀ c : Config, c.validate = none ↔
        (∃ p : Int, Atoi c.Port = some p ∧ 1 ≤ p ∧ p ≤ 65535) ∧
          c.LogLevel ∈ ["debug", "info", "warn", "error", "fatal"]) ∧
      (∀ (env : String → String) (c : Option Config) (g1 : Globals),
        GetConfig Globals.start env = (Returned.value c, g1) →
          ∃ cfg, c = some cfg ∧
            ((∃ p : Int, Atoi cfg.Port = some p ∧ 1 ≤ p ∧ p ≤ 65535) ∧
              cfg.LogLevel ∈ ["debug", "info", "warn", "error", "fatal"]) ∧
            ∀ env2 : String → String, GetConfig g1 env2 = (Returned.value (some cfg), g1)) ∧
      (∀ (env : String → String) (msg : String) (g1 : Globals),
        GetConfig Globals.start env = (Returned.panic msg, g1) →
          ∃ cfg, cfg.validate ≠ none ∧
            ∀ env2 : String → String, GetConfig g1 env2 = (Returned.value (some cfg), g1)) ∧
      (∀ env : String → String,
        (∃ c g1, GetConfig Globals.start env = (Returned.value c, g1)) ↔
          Config.validate
            { Port := getEnv env "PORT" DefaultPort
              LogLevel := getEnv env "LOG_LEVEL" DefaultLogLevel } = none) ∧
      DefaultPort = "8080" ∧ DefaultLogLevel = "info" ∧
      Config.validate { Port := DefaultPort, LogLevel := DefaultLogLevel } = none ∧
      (GetConfig Globals.start fun _ => "").1 =
        Returned.value (some { Port := "8080", LogLevel := "info" }) := by
  refine ⟨validate_none_iff, ?_, ?_, ?_, rfl, rfl, rfl, rfl⟩
  · intro env c g1 h
    obtain ⟨cfg, hc, hv, hg⟩ := getConfig_first_returns env c g1 h
    refine ⟨cfg, hc, (validate_none_iff cfg).mp hv, ?_⟩
    intro env2
    rw [getConfig_again g1 env2 (by rw [hg]), hg]
  · intro env msg g1 h
    obtain ⟨cfg, hv, hg⟩ := getConfig_first_panics env msg g1 h
    refine ⟨cfg, hv, ?_⟩
    intro env2
    rw [getConfig_again g1 env2 (by rw [hg]), hg]
  · intro env
    constructor
    · rintro ⟨c, g1, h⟩
      cases hv : Config.validate
          { Port := getEnv env "PORT" DefaultPort
            LogLevel := getEnv env "LOG_LEVEL" DefaultLogLevel } with
      | none => rfl
      | some err => simp [GetConfig, Globals.start, hv] at h
    · intro hv
      refine ⟨some
        { Port := getEnv env "PORT" DefaultPort
          LogLevel := getEnv env "LOG_LEVEL" DefaultLogLevel },
        { inst := some
            { Port := getEnv env "PORT" DefaultPort
              LogLevel := getEnv env "LOG_LEVEL" DefaultLogLevel }
          onceDone := true }, ?_⟩
      simp [GetConfig, Globals.start, hv]

/-- Witness for C25, amended, `TestGetConfig_DefaultValues` and
`TestGetConfig_Singleton`: with neither variable set the first call returns
the defaults, they pass `validate` through port 8080, and a second call
returns them again even if `PORT` has been set to "0" in between. -/
theorem validate_characterised_witness :
    GetConfig Globals.start (fun _ => "") =
        (Returned.value (some { Port := "8080", LogLevel := "info" }),
          { inst := some { Port := "8080", LogLevel := "info" }, onceDone := true }) ∧
      (∃ cfg : Config, some ({ Port := "8080", LogLevel := "info" } : Config) = some cfg ∧
        ((∃ p : Int, Atoi cfg.Port = some p ∧ 1 ≤ p ∧ p ≤ 65535) ∧
          cfg.LogLevel ∈ ["debug", "info", "warn", "error", "fatal"]) ∧
        ∀ env2 : String → String,
          GetConfig { inst := some { Port := "8080", LogLevel := "info" }, onceDone := true }
            env2 =
            (Returned.value (some cfg),
              { inst := some { Port := "8080", LogLevel := "info" }, onceDone := true })) ∧
      Config.validate { Port := "8080", LogLevel := "info" } = none :=
  ⟨rfl,
    validate_characterised.2.1 (fun _ => "") (some { Port := "8080", LogLevel := "info" })
      { inst := some { Port := "8080", LogLevel := "info" }, onceDone := true } rfl,
    (validate_characterised.1 { Port := "8080", LogLevel := "info" }).mpr
      ⟨⟨8080, by decide, by decide, by decide⟩, by decide⟩⟩

end Configuration

end ScaleToZero
